import Mathlib

/-!
# Shadowsocks Manager dashboard: client-side synchronisation logic

A shallow embedding of the parts of `static/js/notifications.js`, `static/js/app.js`,
`static/js/services.js`, `static/js/config.js` and `static/js/modals.js` that decide the
ordering and the dismissal of rendered notifications, the in-flight guard of the services
refresh, the durable services snapshot with its staleness check, the traffic stream and its
reconnection, the poll scheduler, the endpoint resolvers, the traffic bar of the users table,
the services overview and the services tab, the password generator and the checks of the
add-user form.

Conventions of the embedding:

* a JavaScript array is a `List`;
* an instant (`new Date()`, `new Date(x).getTime()`) is an `Int` number of milliseconds;
* an optional property is an `Option`; `none` stands for a missing (or falsy) property;
* an `async` function is split at its suspension point into the synchronous part that runs
  when it is called and the continuation that runs when the awaited fetch settles;
* writes to the DOM, to the console and toasts are outside the modelled state, except where a
  definition names the element it models;
* the payloads of responses and stream messages are typed as in the REST and stream contract;
* a read `table[key]` on an object literal also finds the properties that the literal inherits
  from `Object.prototype`;
* a number is a double: a text converts to the double nearest to its value, `none` being `NaN`.
-/

namespace Dashboard

deriving instance DecidableEq for Except

/-! ## Notifications (`notifications.js`, `app.js`) -/

/-- The value of an id property in a JSON payload: a string or a number. -/
inductive JsId where
  | str (s : String)
  | num (n : Int)
  deriving DecidableEq, Repr

/-- The names of the properties that an object literal inherits from `Object.prototype`. -/
def objectPrototypeKeys : List String :=
  ["constructor", "hasOwnProperty", "isPrototypeOf", "propertyIsEnumerable", "toLocaleString",
   "toString", "valueOf", "__proto__", "__defineGetter__", "__defineSetter__",
   "__lookupGetter__", "__lookupSetter__"]

/-- The result of a property read `table[key]` on an object literal: the value of an own entry,
the value that `Object.prototype` holds under an inherited name (a function, or for
`__proto__` the prototype object; different names hold different values), or `undefined`. -/
inductive PropertyRead (α : Type) where
  | own (value : α)
  | inherited (name : String)
  | undefined
  deriving DecidableEq, Repr

/-- The property read `table[key]` on the object literal with the given entries. -/
def readProperty {α : Type} (entries : List (String × α)) (key : String) : PropertyRead α :=
  match entries.lookup key with
  | some value => PropertyRead.own value
  | none =>
    if key ∈ objectPrototypeKeys then PropertyRead.inherited key else PropertyRead.undefined

/-- The value of `new Date(x)` for a property `x` that is present: a date with its millisecond
value `getTime()`, or an invalid date, whose `getTime()` is `NaN`. A numeral stands for the
valid date of that millisecond value. -/
inductive DateValue where
  | valid (ms : Int)
  | invalid
  deriving DecidableEq, Repr

instance instOfNatDateValue (n : Nat) : OfNat DateValue n := ⟨DateValue.valid n⟩

/-- A notification object as delivered in `data.notifications`. `timestamp` holds the date
`new Date(n.timestamp)` of the property when it is present; `user_id` is `none` when the
object has no such property. -/
structure Notification where
  type : String
  message : Option String
  username : Option String
  timestamp : Option DateValue
  user_id : Option JsId := none
  deriving DecidableEq, Repr

/-- The object literal `typeOrder` of the sort callback in `notifications.js`:
`{ 'expired': 0, 'expire_soon': 1, 'traffic_high': 2, 'info': 3 }`. -/
def typeOrder_entries : List (String × Int) :=
  [("expired", 0), ("expire_soon", 1), ("traffic_high", 2), ("info", 3)]

/-- The property read `typeOrder[x.type]`. -/
def typeOrder (t : String) : PropertyRead Int :=
  readProperty typeOrder_entries t

/-- The value of the constants `aOrder` and `bOrder` of the sort callback: a number, or the
value inherited from `Object.prototype` under a name. A numeral stands for that number. -/
inductive RankValue where
  | num (v : Int)
  | inherited (name : String)
  deriving DecidableEq, Repr

instance instOfNatRankValue (n : Nat) : OfNat RankValue n := ⟨RankValue.num n⟩

/-- The expression `typeOrder[x.type] || 4`: the operator `||` yields its right operand when the
left one is falsy, that is when it is `undefined` and also when it is the number `0`; an
inherited value is truthy. -/
def orderOf (t : String) : RankValue :=
  match typeOrder t with
  | PropertyRead.own v => if v = 0 then RankValue.num 4 else RankValue.num v
  | PropertyRead.inherited name => RankValue.inherited name
  | PropertyRead.undefined => RankValue.num 4

/-- The expression `x.timestamp ? new Date(x.timestamp).getTime() : 0`; `none` is `NaN`. -/
def timeOf (n : Notification) : Option Int :=
  match n.timestamp with
  | some (DateValue.valid t) => some t
  | some DateValue.invalid => none
  | none => some 0

/-- The subtraction `aOrder - bOrder`; `none` is `NaN`, the result when an operand is not a
number. -/
def rankDifference : RankValue → RankValue → Option Int
  | RankValue.num x, RankValue.num y => some (x - y)
  | _, _ => none

/-- The comparison callback handed to `notifications.sort` in `updateNotificationsDisplay`;
`none` is `NaN`. -/
def compareNotifications (a b : Notification) : Option Int :=
  let aOrder := orderOf a.type
  let bOrder := orderOf b.type
  if aOrder ≠ bOrder then rankDifference aOrder bOrder
  else
    let aTime := timeOf a
    let bTime := timeOf b
    match bTime, aTime with
    | some tb, some ta => some (tb - ta)
    | _, _ => none

/-- The order induced by the callback: `a` may stay in front of `b`. The sort takes a result
`NaN` of the callback as `+0`. -/
def notifLE (a b : Notification) : Prop := (compareNotifications a b).getD 0 ≤ 0

instance notifLE_decidable : DecidableRel notifLE :=
  fun a b => inferInstanceAs (Decidable ((compareNotifications a b).getD 0 ≤ 0))

/-- A notification at which the callback computes with numbers only: its type is not the name
of a property inherited from `Object.prototype`, and its timestamp, if present, is a valid
date. -/
def PlainNotification (n : Notification) : Prop :=
  n.type ∉ objectPrototypeKeys ∧ n.timestamp ≠ some DateValue.invalid

instance PlainNotification_decidable (n : Notification) : Decidable (PlainNotification n) :=
  inferInstanceAs (Decidable (n.type ∉ objectPrototypeKeys ∧ n.timestamp ≠ some DateValue.invalid))

/-- The rank of a notification as a number, 4 standing in for an inherited value. -/
def rankNumber (n : Notification) : Int :=
  match orderOf n.type with
  | RankValue.num v => v
  | RankValue.inherited _ => 4

/-- The time of a notification as a number, 0 standing in for `NaN`. -/
def timeNumber (n : Notification) : Int :=
  (timeOf n).getD 0

/-- The order by rank and then by descending time, on the numbers `rankNumber` and
`timeNumber`. -/
def rankTimeLE (a b : Notification) : Prop :=
  if rankNumber a ≠ rankNumber b then rankNumber a - rankNumber b ≤ 0
  else timeNumber b - timeNumber a ≤ 0

instance rankTimeLE_decidable : DecidableRel rankTimeLE :=
  fun a b => inferInstanceAs (Decidable (if rankNumber a ≠ rankNumber b
    then rankNumber a - rankNumber b ≤ 0 else timeNumber b - timeNumber a ≤ 0))

/-- The call `notifications.sort(callback)`: `Array.prototype.sort` is a stable sort, here the
stable insertion sort driven by the callback. -/
def sortNotifications (l : List Notification) : List Notification :=
  List.insertionSort notifLE l

/-- The item template of `updateNotificationsDisplay` in `app.js`; `now` is the text of
`new Date().toLocaleTimeString()`. -/
def appNotificationItem (now : String) (notif : Notification) : String :=
  "<div class=\"notification-item " ++ notif.type ++ "\">"
    ++ "<div class=\"notification-header\">"
    ++ "<span class=\"notification-type\">" ++ notif.type ++ "</span>"
    ++ "<span class=\"notification-time\">" ++ now ++ "</span>"
    ++ "</div>"
    ++ "<div class=\"notification-content\">" ++ notif.message.getD "No message" ++ "</div>"
    ++ (match notif.username with
        | some u => "<div class=\"notification-user\">User: " ++ u ++ "</div>"
        | none => "")
    ++ "</div>"

/-- The items `updateNotificationsDisplay(notifications)` of `app.js` writes into the list
element, in the order in which it writes them: `notifications.map(template)`. -/
def appRenderedItems (now : String) (notifications : List Notification) : List String :=
  notifications.map (appNotificationItem now)

/-- The function `updateNotificationsDisplay(notifications)` of `app.js`: the text it assigns to
`list.innerHTML` (white space between tags left out): the empty-state block for an empty
list, and otherwise the items joined by the empty string. -/
def appUpdateNotificationsDisplay (now : String) (notifications : List Notification) : String :=
  if notifications.length = 0 then
    "<div class=\"no-notifications\"><i class=\"fas fa-bell-slash\"></i><p>No notifications</p></div>"
  else
    String.join (appRenderedItems now notifications)

/-! ## Refresh operations without a guard (`app.js`, `notifications.js`) -/

/-- The number of fetches that the refresh operations of the users, stats and notifications
domains have issued and that have not settled yet. -/
structure RefreshState where
  usersInFlight : Nat
  statsInFlight : Nat
  notificationsInFlight : Nat
  deriving DecidableEq, Repr

/-- The state when the page has loaded and no refresh has run. -/
def refreshInit : RefreshState :=
  { usersInFlight := 0, statsInFlight := 0, notificationsInFlight := 0 }

/-- The synchronous part of `loadUsers()` in `app.js`: `try { const response = await
fetch(getApiUrl('users'))`; the fetch is the first statement of the body. -/
def loadUsers_call (s : RefreshState) : RefreshState :=
  { s with usersInFlight := s.usersInFlight + 1 }

/-- The synchronous part of `loadStats()` in `app.js`: `try { const response = await
fetch(getApiUrl('stats'))`. -/
def loadStats_call (s : RefreshState) : RefreshState :=
  { s with statsInFlight := s.statsInFlight + 1 }

/-- The synchronous part of `checkNotifications()` in `app.js`: `try { const response = await
fetch(getApiUrl('notifications.check'), { method: 'POST' })`. -/
def checkNotifications_call (s : RefreshState) : RefreshState :=
  { s with notificationsInFlight := s.notificationsInFlight + 1 }

/-- The synchronous part of `loadNotifications()` in `notifications.js`, whose body starts with
the same fetch as `checkNotifications` of `app.js`. -/
def loadNotifications_call (s : RefreshState) : RefreshState :=
  { s with notificationsInFlight := s.notificationsInFlight + 1 }

/-! ## Services refresh and its durable snapshot (`services.js`) -/

/-- An element of `user_services`. -/
structure Service where
  service_name : String
  username : Option String
  active : Bool
  enabled : Bool
  port : Option Nat
  method : Option String
  deriving DecidableEq, Repr

/-- The value stored under the key `'shadowsocks-services'`. `snapshot data timestamp` is the
text of an object `{data, timestamp}`, with `timestamp` the value of
`new Date(parsed.timestamp).getTime()`, `none` when that is `NaN`; `unreadable` is a text at
which `JSON.parse(saved)` or the access `parsed.timestamp` throws. -/
inductive StorageItem where
  | unreadable
  | snapshot (data : List Service) (timestamp : Option Int)
  deriving DecidableEq, Repr

/-- The module variables of `services.js` together with the storage entry; `inFlight` counts the
activations of `loadServicesStatus` suspended at `await`, `fetchCount` all calls of `fetch`. -/
structure ServicesState where
  servicesData : List Service
  isUpdating : Bool
  lastUpdateTime : Option Int
  storage : Option StorageItem
  inFlight : Nat
  fetchCount : Nat
  deriving DecidableEq, Repr

/-- The state after the module has been evaluated: `servicesData = []`, `lastUpdateTime = null`,
`isUpdating = false`, with whatever an earlier page left in the storage. -/
def servicesInit (storage : Option StorageItem) : ServicesState :=
  { servicesData := [], isUpdating := false, lastUpdateTime := none, storage := storage,
    inFlight := 0, fetchCount := 0 }

/-- The function `saveServicesToLocalStorage()` run at instant `now`; `writeOk` is false when
`localStorage.setItem` throws, which the function swallows. -/
def saveServicesToLocalStorage (now : Int) (writeOk : Bool) (s : ServicesState) : ServicesState :=
  if writeOk then { s with storage := some (StorageItem.snapshot s.servicesData (some now)) }
  else s

/-- The function `getServicesFromLocalStorage()` run at instant `now`; `none` is `null`. -/
def getServicesFromLocalStorage (now : Int) (storage : Option StorageItem) :
    Option (List Service) :=
  match storage with
  | none => none
  | some StorageItem.unreadable => none
  | some (StorageItem.snapshot _ none) => none
  | some (StorageItem.snapshot data (some timestamp)) =>
    let age := now - timestamp
    if age < 3600000 then some data else none

/-- How the fetch of `loadServicesStatus` settles. -/
inductive FetchOutcome where
  /-- The promise of `fetch(url)` rejects. -/
  | networkError
  /-- The response has `response.ok` false. -/
  | httpError (status : Nat)
  /-- The promise of `response.json()` rejects, or the body is `null`. -/
  | badBody
  /-- The body is an object; `user_services` is `none` unless the property is an array. -/
  | json (success : Bool) (user_services : Option (List Service))
  deriving DecidableEq, Repr

/-- The part of `loadServicesStatus(forceRefresh)` that runs when it is called, up to
`await fetch(url)`. -/
def loadServicesStatus_call (forceRefresh : Bool) (s : ServicesState) : ServicesState :=
  if s.isUpdating && !forceRefresh then s
  else { s with isUpdating := true, inFlight := s.inFlight + 1, fetchCount := s.fetchCount + 1 }

/-- The `catch` block of `loadServicesStatus`, run at instant `now`. -/
def loadServicesStatus_catch (now : Int) (s : ServicesState) : ServicesState :=
  match getServicesFromLocalStorage now s.storage with
  | some cachedServices =>
    if cachedServices.length > 0 then { s with servicesData := cachedServices } else s
  | none => s

/-- The rest of `loadServicesStatus` from the moment its fetch settles with outcome `o`: the
remainder of the `try` block, the `catch` block when something was thrown, then `finally`.
All of its clock reads are the one instant `now`; the display functions it calls
(`updateServicesDisplayBasedOnTab`, `updateLastUpdateTime`, `checkUserServiceMatch`,
`showServicesLoading`, `showToast`) only read the state and write to the DOM. -/
def loadServicesStatus_resume (now : Int) (writeOk : Bool) (o : FetchOutcome)
    (s : ServicesState) : ServicesState :=
  let s1 :=
    match o with
    | FetchOutcome.json true user_services =>
      saveServicesToLocalStorage now writeOk
        { s with servicesData := user_services.getD [], lastUpdateTime := some now }
    | FetchOutcome.json false _ => s
    | FetchOutcome.networkError => loadServicesStatus_catch now s
    | FetchOutcome.httpError _ => loadServicesStatus_catch now s
    | FetchOutcome.badBody => loadServicesStatus_catch now s
  { s1 with isUpdating := false, inFlight := s1.inFlight - 1 }

/-- What can happen next to the services refresh: a call of `loadServicesStatus`, or the fetch
of a suspended activation settling. -/
inductive ServicesEvent where
  | call (forceRefresh : Bool)
  | settle (now : Int) (writeOk : Bool) (o : FetchOutcome)
  deriving DecidableEq, Repr

/-- One step of the services refresh; a fetch can settle only when one is in flight. -/
def servicesStep (s : ServicesState) : ServicesEvent → ServicesState
  | ServicesEvent.call forceRefresh => loadServicesStatus_call forceRefresh s
  | ServicesEvent.settle now writeOk o =>
    if s.inFlight = 0 then s else loadServicesStatus_resume now writeOk o s

/-- The state after a sequence of events. -/
def servicesRun (s : ServicesState) (events : List ServicesEvent) : ServicesState :=
  events.foldl servicesStep s

/-- An event other than a forced call. -/
def ServicesEvent.nonForced : ServicesEvent → Bool
  | ServicesEvent.call forceRefresh => !forceRefresh
  | ServicesEvent.settle _ _ _ => true

/-- The guard invariant: the flag is set exactly while one fetch is in flight. -/
def GuardInv (s : ServicesState) : Prop :=
  s.inFlight = if s.isUpdating then 1 else 0

/-! ## Traffic stream (`app.js`, `startTrafficStream`) -/

/-- An element of `data.history`. -/
structure TrafficPoint where
  timestamp : Option Int
  total_used_gb : Option ℚ
  deriving DecidableEq, Repr

/-- An element of `data.users`. -/
structure LiveUser where
  username : Option String
  port : Option Nat
  traffic_used_gb : Option ℚ
  traffic_limit_gb : Option ℚ
  deriving DecidableEq, Repr

/-- The property `data` of a parsed stream message. `missing` is `undefined` or `null`, where
reading `data.data.history` throws; `primitive` is a number, string or boolean, all of whose
properties read as `undefined`; `object` carries `history` and `users`, `none` when the property
is absent. -/
inductive DataField where
  | missing
  | primitive
  | object (history : Option (List TrafficPoint)) (users : Option (List LiveUser))
  deriving DecidableEq, Repr

/-- The text `event.data` of a stream message. `invalidJson` makes `JSON.parse` throw; `jsonNull`
parses to `null`, where reading `data.type` throws; `json type data` is any other value, `type`
being its property `type` when that is a string. -/
inductive StreamMessage where
  | invalidJson
  | jsonNull
  | json (type : Option String) (data : DataField)
  deriving DecidableEq, Repr

/-- The constants `EventSource.CONNECTING`, `EventSource.OPEN`, `EventSource.CLOSED`. -/
inductive ReadyState where
  | connecting
  | openState
  | closed
  deriving DecidableEq, Repr

/-- The state around `startTrafficStream`. `sources` lists the `readyState` of every
`EventSource` the function has created, oldest first; the variable `eventSource` is the last of
them, `null` when the list is empty. `timers` counts the pending reconnect timers, `starts` the
invocations of `startTrafficStream`, and `liveUsers` is the list last handed to
`updateLiveTrafficDisplay`. -/
structure StreamState where
  sources : List ReadyState
  timers : Nat
  starts : Nat
  liveTrafficData : List TrafficPoint
  liveUsers : List LiveUser
  deriving DecidableEq, Repr

/-- The state when the page has loaded: `eventSource = null`, `liveTrafficData = []`. -/
def streamInit : StreamState :=
  { sources := [], timers := 0, starts := 0, liveTrafficData := [], liveUsers := [] }

/-- The `readyState` of the variable `eventSource`, `none` when the variable is `null`. -/
def StreamState.eventSource (s : StreamState) : Option ReadyState :=
  s.sources.getLast?

/-- The call `eventSource.close()` on the newest source. -/
def closeCurrent (sources : List ReadyState) : List ReadyState :=
  match sources.getLast? with
  | none => []
  | some _ => sources.dropLast ++ [ReadyState.closed]

/-- The function `startTrafficStream()`: close the current source if there is one, then create
a new `EventSource`, which starts in the state `CONNECTING`. -/
def startTrafficStream (s : StreamState) : StreamState :=
  { s with sources := closeCurrent s.sources ++ [ReadyState.connecting],
           starts := s.starts + 1 }

/-- The `try` block of the handler `eventSource.onmessage`; `Except.error` is a thrown
exception. `updateTrafficChart` and `updateLiveTrafficDisplay` only draw. -/
def onmessage_try (s : StreamState) : StreamMessage → Except String StreamState
  | StreamMessage.invalidJson => Except.error "SyntaxError"
  | StreamMessage.jsonNull => Except.error "TypeError"
  | StreamMessage.json type data =>
    if type = some "traffic_update" then
      match data with
      | DataField.missing => Except.error "TypeError"
      | DataField.primitive =>
        Except.ok { s with liveTrafficData := [], liveUsers := [] }
      | DataField.object history users =>
        Except.ok { s with liveTrafficData := history.getD [], liveUsers := users.getD [] }
    else Except.ok s

/-- The handler `eventSource.onmessage`: the `try` block, with the `catch` block that logs the
exception and returns. -/
def onmessage (s : StreamState) (m : StreamMessage) : Except String StreamState :=
  match onmessage_try s m with
  | Except.ok s' => Except.ok s'
  | Except.error _ => Except.ok s

/-- The handler `eventSource.onerror`: it paints the indicator and schedules a reconnect timer
with `setTimeout(..., 5000)`. -/
def onerror (s : StreamState) : StreamState :=
  { s with timers := s.timers + 1 }

/-- The callback of the reconnect timer, run when a pending timer fires:
`if (eventSource && eventSource.readyState === EventSource.CLOSED) startTrafficStream()`. -/
def reconnectTimer (s : StreamState) : StreamState :=
  if s.timers = 0 then s
  else
    let s' := { s with timers := s.timers - 1 }
    if s'.eventSource = some ReadyState.closed then startTrafficStream s' else s'

/-- The browser moves the current source to a new `readyState`; a closed source stays closed. -/
def setCurrent (r : ReadyState) (sources : List ReadyState) : List ReadyState :=
  match sources.getLast? with
  | none => []
  | some r0 => sources.dropLast ++ [if r0 = ReadyState.closed then ReadyState.closed else r]

/-- What can happen next to the stream: a call of `startTrafficStream` (from `initApp`), the
connection opening, the connection failing (for good when `fatal`, otherwise the browser
retries by itself) with the `error` event it raises, the `error` handler running once more, a
message arriving, or a reconnect timer firing. -/
inductive StreamEvent where
  | start
  | opened
  | failed (fatal : Bool)
  | errorAgain
  | message (m : StreamMessage)
  | timer
  deriving DecidableEq, Repr

/-- One step of the stream. -/
def streamStep (s : StreamState) : StreamEvent → StreamState
  | StreamEvent.start => startTrafficStream s
  | StreamEvent.opened => { s with sources := setCurrent ReadyState.openState s.sources }
  | StreamEvent.failed fatal =>
    let r := if fatal then ReadyState.closed else ReadyState.connecting
    onerror { s with sources := setCurrent r s.sources }
  | StreamEvent.errorAgain => onerror s
  | StreamEvent.message m =>
    match onmessage s m with
    | Except.ok s' => s'
    | Except.error _ => s
  | StreamEvent.timer => reconnectTimer s

/-- The state after a sequence of stream events. -/
def streamRun (s : StreamState) (events : List StreamEvent) : StreamState :=
  events.foldl streamStep s

/-- The number of sources that are not closed. -/
def liveSources (s : StreamState) : Nat :=
  (s.sources.filter (fun r => decide (r ≠ ReadyState.closed))).length

/-- Every source but the newest is closed. -/
def OldClosed (sources : List ReadyState) : Prop :=
  ∀ r ∈ sources.dropLast, r = ReadyState.closed

/-! ## Poll scheduler (`app.js`, `setupAutoRefresh`) -/

/-- The functions that the repository hands to `setInterval`, and `loadUsers`. -/
inductive Callback where
  | loadStats
  | loadUsers
  | loadServicesOverview
  | loadServicesStatus
  | checkNotifications
  | loadNotifications
  | checkServerHealth
  deriving DecidableEq, Repr

/-- The shape of the constant `UPDATE_INTERVALS`. -/
structure UpdateIntervals where
  stats : Nat
  services : Nat
  notifications : Nat
  deriving DecidableEq, Repr

/-- The constant `UPDATE_INTERVALS` of `app.js`. -/
def UPDATE_INTERVALS : UpdateIntervals :=
  { stats := 30000, services := 60000, notifications := 300000 }

/-- The function `setupAutoRefresh()`: the calls of `setInterval(callback, period)` it makes, in
order. -/
def setupAutoRefresh : List (Callback × Nat) :=
  [(Callback.loadStats, UPDATE_INTERVALS.stats),
   (Callback.loadServicesOverview, UPDATE_INTERVALS.services),
   (Callback.checkNotifications, UPDATE_INTERVALS.notifications),
   (Callback.checkServerHealth, 60000)]

/-! ## JavaScript string primitives -/

/-- Whether `pat` occurs in the characters `s`. -/
def charsIncludes (pat : List Char) : List Char → Bool
  | [] => pat.isEmpty
  | c :: cs => pat.isPrefixOf (c :: cs) || charsIncludes pat cs

/-- The method `s.includes(pat)`. -/
def jsIncludes (s pat : String) : Bool :=
  charsIncludes pat.data s.data

/-- Replace the first occurrence of `pat` in the characters `s` by `rep`. -/
def charsReplace (pat rep : List Char) : List Char → List Char
  | [] => if pat.isEmpty then rep else []
  | c :: cs =>
    if pat.isPrefixOf (c :: cs) then rep ++ (c :: cs).drop pat.length
    else c :: charsReplace pat rep cs

/-- The method `s.replace(pat, rep)` with a string pattern: only the first occurrence is
replaced (`rep` is taken literally: no `$` patterns). -/
def jsReplace (s pat rep : String) : String :=
  String.mk (charsReplace pat.data rep.data s.data)

/-- The call `s.replace(/\/$/, '')`: one slash at the very end of `s` is removed. -/
def stripTrailingSlash (s : String) : String :=
  if s.data.getLast? = some '/' then String.mk s.data.dropLast else s

/-! ## Endpoint resolver (`app.js`, `config.js`) -/

/-- The object literal `API_ENDPOINTS` of `app.js`. -/
def API_ENDPOINTS_entries : List (String × String) :=
  [("health", "/api/health"),
   ("stats", "/api/stats"),
   ("users", "/api/users"),
   ("services.status", "/api/services/status"),
   ("traffic.history", "/api/traffic/history"),
   ("notifications.history", "/api/notifications/history"),
   ("admin.initialize", "/api/admin/initialize"),
   ("services.sync", "/api/services/sync"),
   ("services.restart-all", "/api/services/restart-all"),
   ("services.reload-all", "/api/services/reload-all"),
   ("notifications.check", "/api/notifications/check"),
   ("user.add", "/api/users"),
   ("traffic.stream", "/api/traffic-stream"),
   ("service.control", "/api/service/control")]

/-- The path that the object literal `API_ENDPOINTS` of `app.js` maps a key to, `none` when
the literal has no entry for the key. -/
def API_ENDPOINTS (endpointKey : String) : Option String :=
  API_ENDPOINTS_entries.lookup endpointKey

/-- The text that string concatenation gives for the value `Object.prototype` holds under an
inherited name: `[object Object]` for `__proto__`, else the source text of a native function
(as V8 prints it). -/
def inheritedText (name : String) : String :=
  if name = "__proto__" then "[object Object]"
  else "function " ++ (if name = "constructor" then "Object" else name)
    ++ "() \x7b [native code] \x7d"

/-- The function `getApiUrl(endpointKey, id = null)` of `app.js`; `API_BASE` is
`window.location.origin`, and `id` is `none` for `null`. The read `API_ENDPOINTS[endpointKey]`
also finds the properties inherited from `Object.prototype`; `Except.error` is a thrown
exception. -/
def getApiUrl (API_BASE : String) (endpointKey : String) (id : Option String) :
    Except String String :=
  match readProperty API_ENDPOINTS_entries endpointKey with
  | PropertyRead.undefined => Except.ok ""
  | PropertyRead.own endpoint =>
    if endpoint = "" then Except.ok ""
    else
      match id with
      | some i =>
        if i ≠ "" && jsIncludes endpoint "{id}" then
          Except.ok (API_BASE ++ jsReplace endpoint "{id}" i)
        else Except.ok (API_BASE ++ endpoint)
      | none => Except.ok (API_BASE ++ endpoint)
  | PropertyRead.inherited name =>
    match id with
    | some i =>
      if i ≠ "" then Except.error "TypeError: endpoint.includes is not a function"
      else Except.ok (API_BASE ++ inheritedText name)
    | none => Except.ok (API_BASE ++ inheritedText name)

/-- The function `getUserConfigUrl(userId)` of `app.js`. -/
def getUserConfigUrl (API_BASE : String) (userId : String) : String :=
  API_BASE ++ "/api/users/" ++ userId ++ "/config"

/-- The object literal `CONFIG.API_ENDPOINTS` of `config.js`. -/
def CONFIG_API_ENDPOINTS_entries : List (String × String) :=
  [("health", "/api/health"),
   ("stats", "/api/stats"),
   ("users", "/api/users"),
   ("services.status", "/api/services/status"),
   ("services.restart-all", "/api/services/restart-all"),
   ("services.reload-all", "/api/services/reload-all"),
   ("services.sync", "/api/services/sync"),
   ("traffic.stream", "/api/traffic-stream"),
   ("traffic.history", "/api/traffic/history"),
   ("notifications.check", "/api/notifications/check"),
   ("notifications.history", "/api/notifications/history"),
   ("admin.initialize", "/api/admin/initialize"),
   ("user.add", "/api/users"),
   ("user.delete", "/api/users/"),
   ("user.config", "/api/users/"),
   ("user.reset-traffic", "/api/users/"),
   ("user.extend", "/api/users/"),
   ("user.service.toggle", "/api/users/"),
   ("user.service.restart", "/api/users/"),
   ("service.control", "/api/service/control")]

/-- The property read `CONFIG.API_ENDPOINTS[endpoint]` of `config.js`; `none` is
`undefined`. -/
def CONFIG_API_ENDPOINTS (endpoint : String) : Option String :=
  CONFIG_API_ENDPOINTS_entries.lookup endpoint

/-- The function `getApiUrl(endpoint, id = '')` of `config.js`; `API_URL` is `CONFIG.API_URL`,
that is `window.location.origin`. -/
def configGetApiUrl (API_URL : String) (endpoint : String) (id : String) : String :=
  let baseUrl :=
    match CONFIG_API_ENDPOINTS endpoint with
    | some mapped => if mapped = "" then endpoint else mapped
    | none => endpoint
  let baseUrl := if id ≠ "" then stripTrailingSlash baseUrl ++ "/" ++ id else baseUrl
  API_URL ++ baseUrl

/-! ## Users table and services overview (`app.js`, `services.js`) -/

/-- An element of `data.users`, as far as the modelled functions read it. -/
structure User where
  username : String
  port : Option Nat
  method : Option String
  traffic_used_gb : Option ℚ
  traffic_limit_gb : Option ℚ
  traffic_percent : Option ℚ
  enable : Bool
  deriving DecidableEq, Repr

/-- The constant `trafficPercent` of `createUserRow(user)`, which the row template writes into
`style="width: ${trafficPercent}%"`: `Math.min(user.traffic_percent || 0, 100)`. -/
def trafficPercent (user : User) : ℚ :=
  min (match user.traffic_percent with
       | some p => if p = 0 then 0 else p
       | none => 0) 100

/-- The element `#services-overview`: its content and whether it carries the attribute
`data-updating`. -/
structure OverviewContainer where
  innerHTML : String
  dataUpdating : Bool
  deriving DecidableEq, Repr

/-- The empty-state block of `updateServicesOverview` (white space between tags left out). -/
def overviewNoData : String :=
  "<div class=\"no-data\"><i class=\"fas fa-server\"></i>"
    ++ "<p>No services found. Add a user to create a service.</p></div>"

/-- The port shown on a card of the overview: the port of the service, else the port of the
user of the same name, else of the user whose name is the service name without
`'shadowsocks-'` and `'.service'`, else `'N/A'`. -/
def overviewPort (usersData : List User) (service : Service) : String :=
  let username := service.username.getD "Unknown"
  match service.port with
  | some p => toString p
  | none =>
    let user :=
      match usersData.find? (fun u => u.username = username) with
      | some u => some u
      | none =>
        let extractedName :=
          jsReplace (jsReplace service.service_name "shadowsocks-" "") ".service" ""
        usersData.find? (fun u => u.username = extractedName)
    match user with
    | some u =>
      match u.port with
      | some p => toString p
      | none => "N/A"
    | none => "N/A"

/-- The card that `updateServicesOverview` renders for one service (white space between tags
left out). -/
def overviewCard (usersData : List User) (service : Service) : String :=
  let username := service.username.getD "Unknown"
  "<div class=\"service-card\"><div class=\"service-card-header\">"
    ++ "<div class=\"service-card-title\">" ++ service.service_name ++ "</div>"
    ++ "<div class=\"service-status "
    ++ (if service.active then "service-running" else "service-stopped") ++ "\">"
    ++ "<i class=\"fas fa-circle\"></i>"
    ++ (if service.active then "Running" else "Stopped") ++ "</div></div>"
    ++ "<div class=\"service-card-body\">"
    ++ "<div class=\"service-info-item\"><span class=\"service-info-label\">Username:</span>"
    ++ "<span class=\"service-info-value\">" ++ username ++ "</span></div>"
    ++ "<div class=\"service-info-item\"><span class=\"service-info-label\">Port:</span>"
    ++ "<span class=\"service-info-value\">" ++ overviewPort usersData service ++ "</span></div>"
    ++ "<div class=\"service-info-item\"><span class=\"service-info-label\">Enabled:</span>"
    ++ "<span class=\"service-info-value "
    ++ (if service.enabled then "status-active" else "status-inactive") ++ "\">"
    ++ "<i class=\"fas fa-circle\"></i>" ++ (if service.enabled then "Yes" else "No")
    ++ "</span></div></div>"
    ++ "<div class=\"service-card-actions\">"
    ++ "<button class=\"btn btn-xs\" onclick=\"showServiceDetails('" ++ service.service_name
    ++ "', '" ++ username ++ "')\"><i class=\"fas fa-info-circle\"></i> Details</button>"
    ++ "<button class=\"btn btn-xs btn-info\" onclick=\"restartServiceByName('"
    ++ service.service_name ++ "')\"><i class=\"fas fa-redo\"></i> Restart</button>"
    ++ "</div></div>"

/-- The function `updateServicesOverview(services)` of `services.js` acting on the element
`#services-overview`, `none` when the document has no such element. -/
def updateServicesOverview (usersData : List User) (services : List Service)
    (container : Option OverviewContainer) : Option OverviewContainer :=
  match container with
  | none => none
  | some c =>
    if c.dataUpdating then some c
    else
      if services.length = 0 then
        some { innerHTML := overviewNoData, dataUpdating := false }
      else
        some { innerHTML := "<div class=\"services-grid\">"
                 ++ String.join (services.map (overviewCard usersData)) ++ "</div>",
               dataUpdating := false }

/-- The rest of `loadServicesOverview()` of `app.js` from the moment its fetch of
`'services.status'` settles; `window.updateServicesOverview` is the function of `services.js`. -/
def loadServicesOverview_resume (o : FetchOutcome) (usersData : List User)
    (container : Option OverviewContainer) : Option OverviewContainer :=
  match o with
  | FetchOutcome.json true user_services =>
    updateServicesOverview usersData (user_services.getD []) container
  | FetchOutcome.json false _ => container
  | FetchOutcome.networkError => container
  | FetchOutcome.httpError _ => container
  | FetchOutcome.badBody => container

/-! ## Dismissing a notification (`notifications.js`) -/

/-- The text that a template literal `${x}` produces for an id property. -/
def idText : Option JsId → String
  | some (JsId.str s) => s
  | some (JsId.num n) => toString n
  | none => "undefined"

/-- The two string arguments that `createNotificationItem(notification)` writes into the
`onclick` of the Dismiss button:
`dismissNotification('${notification.type}', '${notification.user_id}')`. -/
def dismissArgs (notification : Notification) : String × String :=
  (notification.type, idText notification.user_id)

/-- The comparison `notif.user_id === userId` with `userId` a string: strict equality holds
only for a string of the same text. -/
def idStrictEq (id : Option JsId) (userId : String) : Bool :=
  match id with
  | some (JsId.str s) => s = userId
  | some (JsId.num _) => false
  | none => false

/-- The function `dismissNotification(type, userId)`: the value of `notifications` after it,
the filtered list sorted in place by the `updateNotificationsDisplay()` it calls (the list
element that holds the Dismiss buttons exists). -/
def dismissNotification (type userId : String) (notifications : List Notification) :
    List Notification :=
  sortNotifications
    (notifications.filter (fun notif => !(notif.type = type && idStrictEq notif.user_id userId)))

/-! ## Services tab (`services.js`, `updateServicesStatusDisplay`) -/

/-- The variables `port` and `method` that `updateServicesStatusDisplay` computes for one
service and writes into its item. -/
def statusPortMethod (usersData : List User) (service : Service) : String × String :=
  let username := service.username.getD "Unknown"
  let port := "N/A"
  let method := "N/A"
  match service.port with
  | some p => (toString p, method)
  | none =>
    match usersData.find? (fun u => u.username = username) with
    | some user =>
      let port := match user.port with
        | some p => toString p
        | none => port
      let method := match user.method with
        | some m => m
        | none => method
      (port, method)
    | none => (port, method)

/-- The extraction `serviceName.replace('shadowsocks-', '').replace('.service', '')` of
`viewServiceConfig` and `updateServicesOverview`. -/
def extractUsername (serviceName : String) : String :=
  jsReplace (jsReplace serviceName "shadowsocks-" "") ".service" ""

/-- The characters that the pattern `[a-zA-Z0-9_-]+` of the username field admits. -/
def usernameChar (c : Char) : Bool :=
  c.isAlphanum || c = '_' || c = '-'

/-- The endpoint keys that the call sites of `getApiUrl` in `app.js`, `export.js`, `modals.js`,
`notifications.js` and `services.js` pass. -/
def callSiteKeys : List String :=
  ["health", "stats", "users", "services.status", "traffic.stream", "traffic.history",
   "notifications.history", "notifications.check", "admin.initialize", "services.sync",
   "services.restart-all", "services.reload-all", "user.config", "user.add",
   "service.control"]

/-! ## Password generator (`modals.js`, `generateRandomPassword`) -/

/-- The constant `chars` of `generateRandomPassword`. -/
def chars : String :=
  "ABCDEFGHIJKLMNOPQRSTUVWXYZabcdefghijklmnopqrstuvwxyz0123456789!@#$%^&*"

/-- The method `s.charAt(i)`: the character at index `i`, the empty string past the end. -/
def charAt (s : String) (i : Nat) : List Char :=
  match s.data.get? i with
  | some c => [c]
  | none => []

/-- The loop of `generateRandomPassword`; `draws i` is the value of
`Math.floor(Math.random() * chars.length)` in round `i`. -/
def randomChars (draws : Fin 16 → Fin 70) : List Char :=
  ((List.ofFn draws).map (fun d => charAt chars d.val)).flatten

/-- The class `[!@#$%^&*]`. -/
def isSpecial (c : Char) : Bool :=
  "!@#$%^&*".data.contains c

/-- The line `if (!/[A-Z]/.test(password)) password = 'A' + password.slice(1)`. -/
def ensureUpper (password : List Char) : List Char :=
  if password.any Char.isUpper then password else 'A' :: password.drop 1

/-- The line `if (!/[a-z]/.test(password)) password = 'a' + password.slice(2)`. -/
def ensureLower (password : List Char) : List Char :=
  if password.any Char.isLower then password else 'a' :: password.drop 2

/-- The line `if (!/[0-9]/.test(password)) password = '1' + password.slice(3)`. -/
def ensureDigit (password : List Char) : List Char :=
  if password.any Char.isDigit then password else '1' :: password.drop 3

/-- The line `if (!/[!@#$%^&*]/.test(password)) password = '!' + password.slice(4)`. -/
def ensureSpecial (password : List Char) : List Char :=
  if password.any isSpecial then password else '!' :: password.drop 4

/-- The function `generateRandomPassword()`: the password it writes into the password field,
for the given outcome of its sixteen random draws. -/
def generateRandomPassword (draws : Fin 16 → Fin 70) : String :=
  String.mk (ensureSpecial (ensureDigit (ensureLower (ensureUpper (randomChars draws)))))

/-! ## Add-user form (`modals.js`, `handleAddUser`) -/

/-- The class `\s` of a regular expression, which is also what `trim()` removes. -/
def jsWhitespace (c : Char) : Bool :=
  [9, 10, 11, 12, 13, 32, 160, 5760, 8232, 8233, 8239, 8287, 12288, 65279].contains c.toNat
    || (8192 ≤ c.toNat && c.toNat ≤ 8202)

/-- The property `s.length`: the number of UTF-16 code units, two for a character outside the
basic plane. -/
def jsLength (s : String) : Nat :=
  (s.data.map (fun c => if c.toNat < 65536 then 1 else 2)).sum

/-- The method `s.trim()`. -/
def jsTrim (s : String) : String :=
  String.mk ((s.data.dropWhile jsWhitespace).reverse.dropWhile jsWhitespace).reverse

/-- The pattern `X+ rest`: one or more characters of the class `p`, followed by a text that
`rest` accepts. -/
def matchPlus (p : Char → Bool) (rest : List Char → Bool) : List Char → Bool
  | [] => false
  | c :: cs => p c && (rest cs || matchPlus p rest cs)

/-- The pattern `c rest`: the character `c`, followed by a text that `rest` accepts. -/
def matchChar (c : Char) (rest : List Char → Bool) : List Char → Bool
  | [] => false
  | d :: ds => d = c && rest ds

/-- The class `[^\s@]`. -/
def emailChar (c : Char) : Bool :=
  !jsWhitespace c && c ≠ '@'

/-- The test `/^[^\s@]+@[^\s@]+\.[^\s@]+$/.test(email)`. -/
def emailRegexTest (email : String) : Bool :=
  matchPlus emailChar
    (matchChar '@' (matchPlus emailChar (matchChar '.' (matchPlus emailChar List.isEmpty))))
    email.data

/-- The form `local@domain.tld`: three non-empty parts without white space and without `@`,
joined by `@` and by a dot. -/
def EmailShape (email : String) : Prop :=
  ∃ a b c : List Char, email.data = a ++ '@' :: (b ++ '.' :: c) ∧
    a ≠ [] ∧ b ≠ [] ∧ c ≠ [] ∧
    (∀ x ∈ a, emailChar x = true) ∧ (∀ x ∈ b, emailChar x = true) ∧
    (∀ x ∈ c, emailChar x = true)

/-- The number that a run of decimal digits denotes. -/
def digitsValue (ds : List Char) : Nat :=
  ds.foldl (fun n c => 10 * n + (c.toNat - '0'.toNat)) 0

/-- The value of a character as a digit of the given base, `none` when it is not one. -/
def digitValueIn (base : Nat) (c : Char) : Option Nat :=
  let value : Option Nat :=
    if c.isDigit then some (c.toNat - '0'.toNat)
    else if 'a' ≤ c ∧ c ≤ 'f' then some (c.toNat - 'a'.toNat + 10)
    else if 'A' ≤ c ∧ c ≤ 'F' then some (c.toNat - 'A'.toNat + 10)
    else none
  match value with
  | some v => if v < base then some v else none
  | none => none

/-- The number that a run of digits of the given base denotes. -/
def digitsValueIn (base : Nat) (ds : List Char) : Nat :=
  ds.foldl (fun n c => base * n + (digitValueIn base c).getD 0) 0

/-- The function `parseInt(s)`: white space, a sign, then after a prefix `0x` or `0X` the
longest run of hexadecimal digits, and otherwise the longest run of decimal digits; `none` is
`NaN`. -/
def parseInt (s : String) : Option Int :=
  let cs := s.data.dropWhile jsWhitespace
  let signed : Bool × List Char :=
    match cs with
    | '-' :: r => (true, r)
    | '+' :: r => (false, r)
    | _ => (false, cs)
  let magnitude : Option Nat :=
    match signed.2 with
    | '0' :: 'x' :: r =>
      let ds := r.takeWhile (fun c => (digitValueIn 16 c).isSome)
      if ds.isEmpty then none else some (digitsValueIn 16 ds)
    | '0' :: 'X' :: r =>
      let ds := r.takeWhile (fun c => (digitValueIn 16 c).isSome)
      if ds.isEmpty then none else some (digitsValueIn 16 ds)
    | rest =>
      let ds := rest.takeWhile Char.isDigit
      if ds.isEmpty then none else some (digitsValue ds)
  match magnitude with
  | some n => some (if signed.1 then -(n : Int) else (n : Int))
  | none => none

/-- A decimal number `mantissa × 10 ^ exponent`. -/
structure Decimal where
  mantissa : Int
  exponent : Int
  deriving DecidableEq, Repr

/-- A JavaScript number other than `NaN`: the double `mantissa × 2 ^ exponent`, or an
infinity. -/
inductive JsNumber where
  | finite (mantissa : Int) (exponent : Int)
  | infinite (negative : Bool)
  deriving DecidableEq, Repr

/-- The largest `b` with `2 ^ b ≤ n` for `n ≥ 1`, found by halving; `fuel` bounds the number
of halvings. -/
def log2Fuel : Nat → Nat → Nat
  | 0, _ => 0
  | fuel + 1, n => if n < 2 then 0 else log2Fuel fuel (n / 2) + 1

/-- The largest `b` with `2 ^ b ≤ n`, for `n ≥ 1`. -/
def floorLog2 (n : Nat) : Nat :=
  log2Fuel n n

/-- The largest integer `b` with `2 ^ b ≤ num / den`, for positive `num` and `den`. -/
def binaryExponent (num den : Nat) : Int :=
  let b0 : Int := (floorLog2 num : Int) - (floorLog2 den : Int)
  let reached : Bool :=
    match b0 with
    | Int.ofNat k => den * 2 ^ k ≤ num
    | Int.negSucc k => den ≤ num * 2 ^ (k + 1)
  if reached then b0 else b0 - 1

/-- The integer nearest to `num / den`, the even one of two that are equally near. -/
def roundHalfEven (num den : Nat) : Nat :=
  let q := num / den
  let r := num % den
  if 2 * r < den then q
  else if den < 2 * r then q + 1
  else if q % 2 = 0 then q else q + 1

/-- The double nearest to `num / den` for positive `num` and `den`, ties to the even mantissa:
the mantissa has 53 bits, the exponent of the last bit is at least -1074, and a result of
`2 ^ 1024` or more is `Infinity`. -/
def roundPositive (num den : Nat) : JsNumber :=
  let b := binaryExponent num den
  let u : Int := max (b - 52) (-1074)
  let k : Nat :=
    match u with
    | Int.ofNat j => roundHalfEven num (den * 2 ^ j)
    | Int.negSucc j => roundHalfEven (num * 2 ^ (j + 1)) den
  if 971 < u || (u = 971 && 2 ^ 53 ≤ k) then JsNumber.infinite false
  else JsNumber.finite k u

/-- The double that a decimal literal denotes: its exact value rounded to the nearest
double. -/
def roundToDouble (d : Decimal) : JsNumber :=
  if d.mantissa = 0 then JsNumber.finite 0 0
  else
    let n := d.mantissa.natAbs
    let positive : JsNumber :=
      match d.exponent with
      | Int.ofNat k => roundPositive (n * 10 ^ k) 1
      | Int.negSucc k => roundPositive n (10 ^ (k + 1))
    if d.mantissa < 0 then
      match positive with
      | JsNumber.finite m e => JsNumber.finite (-m) e
      | JsNumber.infinite _ => JsNumber.infinite true
    else positive

/-- The comparison `v < n` of a number with a natural number, computed on integers. -/
def JsNumber.ltNat (v : JsNumber) (n : Nat) : Bool :=
  match v with
  | JsNumber.finite m (Int.ofNat k) => m * 2 ^ k < n
  | JsNumber.finite m (Int.negSucc k) => m < n * 2 ^ (k + 1)
  | JsNumber.infinite negative => negative

/-- The comparison `v > n` of a number with a natural number, computed on integers. -/
def JsNumber.gtNat (v : JsNumber) (n : Nat) : Bool :=
  match v with
  | JsNumber.finite m (Int.ofNat k) => (n : Int) < m * 2 ^ k
  | JsNumber.finite m (Int.negSucc k) => (n : Int) * 2 ^ (k + 1) < m
  | JsNumber.infinite negative => !negative

/-- A number lies between `lo` and `hi`: it is finite and `lo ≤ mantissa × 2 ^ exponent ≤ hi`. -/
def JsNumber.Between (v : JsNumber) (lo hi : Nat) : Prop :=
  match v with
  | JsNumber.finite m e => (lo : ℚ) ≤ (m : ℚ) * (2 : ℚ) ^ e ∧ (m : ℚ) * (2 : ℚ) ^ e ≤ (hi : ℚ)
  | JsNumber.infinite _ => False

/-- The exponent part of a decimal literal: nothing, or `e` or `E`, an optional sign and one or
more digits up to the end of the text. -/
def parseExponent (cs : List Char) : Option Int :=
  match cs with
  | [] => some 0
  | c :: r =>
    if c = 'e' || c = 'E' then
      let signed : Bool × List Char :=
        match r with
        | '-' :: r' => (true, r')
        | '+' :: r' => (false, r')
        | _ => (false, r)
      if signed.2.isEmpty || !signed.2.all Char.isDigit then none
      else some (if signed.1 then -(digitsValue signed.2 : Int) else (digitsValue signed.2 : Int))
    else none

/-- The exact value of a decimal literal, white space around it removed: a sign, digits, an
optional fraction and an optional exponent; the empty text is 0; `none` for a text that is not
of this form. -/
def parseDecimal (s : String) : Option Decimal :=
  let cs := (jsTrim s).data
  if cs.isEmpty then some { mantissa := 0, exponent := 0 }
  else
    let signed : Bool × List Char :=
      match cs with
      | '-' :: r => (true, r)
      | '+' :: r => (false, r)
      | _ => (false, cs)
    let intDigits := signed.2.takeWhile Char.isDigit
    let afterInt := signed.2.dropWhile Char.isDigit
    let fraction : List Char × List Char :=
      match afterInt with
      | '.' :: r => (r.takeWhile Char.isDigit, r.dropWhile Char.isDigit)
      | _ => ([], afterInt)
    if intDigits.isEmpty && fraction.1.isEmpty then none
    else
      match parseExponent fraction.2 with
      | none => none
      | some e =>
        let m : Int := digitsValue (intDigits ++ fraction.1)
        some { mantissa := if signed.1 then -m else m, exponent := e - fraction.1.length }

/-- The value of a literal `0x…`, `0o…` or `0b…` (either case of the letter) with one or more
digits of its base up to the end of the text; `none` for any other text. -/
def parseNonDecimal (cs : List Char) : Option Nat :=
  match cs with
  | '0' :: p :: ds =>
    let base : Nat :=
      if p = 'x' || p = 'X' then 16
      else if p = 'o' || p = 'O' then 8
      else if p = 'b' || p = 'B' then 2
      else 0
    if base = 0 || ds.isEmpty || !ds.all (fun c => (digitValueIn base c).isSome) then none
    else some (digitsValueIn base ds)
  | _ => none

/-- The conversion of a string to a number that `customPort < 1024` performs, white space
around the text removed: `Infinity` with an optional sign, a literal of base 16, 8 or 2, or a
decimal literal, each rounded to the nearest double; `none` is `NaN`. -/
def toNumber (s : String) : Option JsNumber :=
  let cs := (jsTrim s).data
  if cs = "Infinity".data || cs = "+Infinity".data then some (JsNumber.infinite false)
  else if cs = "-Infinity".data then some (JsNumber.infinite true)
  else
    match parseNonDecimal cs with
    | some n => some (roundToDouble { mantissa := n, exponent := 0 })
    | none => (parseDecimal s).map roundToDouble

/-- The fields that `handleAddUser` reads from the form; `checkValidity` is the result of
`form.checkValidity()`, and `enableUdp` is `none` when the page has no such checkbox. -/
structure AddUserForm where
  checkValidity : Bool
  username : String
  email : String
  trafficLimit : String
  durationDays : String
  method : String
  password : String
  customPort : String
  enableUdp : Option Bool
  deriving DecidableEq, Repr

/-- The object `userData` that `handleAddUser` sends as the body of `POST /api/users`. An
inner `none` is `NaN`; an outer `none` is a property that is not set. -/
structure UserData where
  username : String
  email : String
  traffic_limit_gb : Option Int
  duration_days : Option Int
  method : String
  password : Option String
  port : Option (Option Int)
  enable_udp : Option Bool
  deriving DecidableEq, Repr

/-- The test `customPort && (customPort < 1024 || customPort > 65535)`; a comparison with
`NaN` is false. -/
def portRejected (customPort : String) : Bool :=
  customPort ≠ "" &&
    (match toNumber customPort with
     | some d => d.ltNat 1024 || d.gtNat 65535
     | none => false)

/-- The function `handleAddUser(event)` up to its `fetch`: `some userData` when it issues the
request with that body, `none` when it returns before. -/
def handleAddUser (form : AddUserForm) : Option UserData :=
  if !form.checkValidity then none
  else
    let username := jsTrim form.username
    let email := jsTrim form.email
    if jsLength username < 3 || jsLength username > 20 then none
    else if email ≠ "" && !emailRegexTest email then none
    else if portRejected form.customPort then none
    else if form.password ≠ "" && jsLength form.password < 8 then none
    else
      some { username := username,
             email := email,
             traffic_limit_gb := parseInt form.trafficLimit,
             duration_days := parseInt form.durationDays,
             method := form.method,
             password := if form.password ≠ "" then some form.password else none,
             port := if form.customPort ≠ "" then some (parseInt form.customPort) else none,
             enable_udp := form.enableUdp }

/-! ## Sample values -/

/-- An `info` notification. -/
def sampleInfo : Notification :=
  { type := "info", message := some "Backup finished", username := none, timestamp := some 5000 }

/-- An `expire_soon` notification. -/
def sampleSoon : Notification :=
  { type := "expire_soon", message := some "Expires in 2 days", username := some "alice",
    timestamp := some 7000 }

/-- An `expired` notification. -/
def sampleExpired : Notification :=
  { type := "expired", message := some "Account expired", username := some "bob",
    timestamp := some 9000 }

/-- A running service. -/
def sampleServiceA : Service :=
  { service_name := "shadowsocks-alice.service", username := some "alice", active := true,
    enabled := true, port := some 8388, method := none }

/-- A stopped service. -/
def sampleServiceB : Service :=
  { service_name := "shadowsocks-bob.service", username := some "bob", active := false,
    enabled := true, port := none, method := none }

/-- A state with a refresh under way: `loadServicesStatus()` was called on the fresh module. -/
def sampleUpdating : ServicesState :=
  loadServicesStatus_call false (servicesInit none)

/-- A state reached by the code in which the durable snapshot and `servicesData` differ: a
refresh returned `[sampleServiceA]` and stored it, a second one returned `[sampleServiceB]` while
the storage write threw, and a third refresh has been called. -/
def sampleDiverged : ServicesState :=
  servicesRun (servicesInit none)
    [ServicesEvent.call false,
     ServicesEvent.settle 1000 true (FetchOutcome.json true (some [sampleServiceA])),
     ServicesEvent.call false,
     ServicesEvent.settle 31000 false (FetchOutcome.json true (some [sampleServiceB])),
     ServicesEvent.call false]

/-- The user of the end-to-end scenario:
`{username: "alice", port: 8388, traffic_used_gb: 2, traffic_limit_gb: 10, enable: true}`. -/
def sampleAlice : User :=
  { username := "alice", port := some 8388, method := none, traffic_used_gb := some 2,
    traffic_limit_gb := some 10, traffic_percent := none, enable := true }

/-- The same user with the property `traffic_percent: 20` that the backend computes. -/
def sampleAlicePercent : User :=
  { sampleAlice with traffic_percent := some 20 }

/-- A state of `services.js` with nothing in memory, a durable snapshot written at instant 1000
and a refresh under way. -/
def sampleOffline : ServicesState :=
  loadServicesStatus_call false
    (servicesInit (some (StorageItem.snapshot [sampleServiceA] (some 1000))))

/-- A stream whose connection has failed for good. -/
def sampleClosedStream : StreamState :=
  streamRun streamInit [StreamEvent.start, StreamEvent.opened, StreamEvent.failed true]

/-- A stream with one point of history and one user on display. -/
def sampleLiveStream : StreamState :=
  { sources := [ReadyState.openState], timers := 0, starts := 1,
    liveTrafficData := [{ timestamp := some 1000, total_used_gb := some 3 }],
    liveUsers := [{ username := some "alice", port := some 8388, traffic_used_gb := some 2,
                    traffic_limit_gb := some 10 }] }

/-- An overview element showing the loading indicator. -/
def sampleContainer : OverviewContainer :=
  { innerHTML := "<div class=\"services-loading\"></div>", dataUpdating := false }


/-- The user `alice` with the cipher method of her account. -/
def sampleAliceMethod : User :=
  { sampleAlice with method := some "aes-256-gcm" }

/-- The service of `alice` without a port of its own. -/
def sampleServicePortless : Service :=
  { sampleServiceA with port := none }

/-- An `info` notification whose `user_id` is the number 7. -/
def sampleNumericId : Notification :=
  { sampleInfo with user_id := some (JsId.num 7) }

/-- An `info` notification whose `user_id` is the string `'u7'`. -/
def sampleStringId : Notification :=
  { sampleInfo with user_id := some (JsId.str "u7") }

/-- The outcome in which every draw is index 0, the letter `A`. -/
def drawsAllA : Fin 16 → Fin 70 := fun _ => 0

/-- The outcome in which every draw is index 52, the digit `0`. -/
def drawsAllZero : Fin 16 → Fin 70 := fun _ => 52

/-- A filled add-user form that passes the validation of the browser; the custom port reads
`2e3`, the number 2000. -/
def sampleForm : AddUserForm :=
  { checkValidity := true, username := "carol", email := "carol@example.com",
    trafficLimit := "10", durationDays := "30", method := "aes-256-gcm", password := "",
    customPort := "2e3", enableUdp := some true }

/-- The same form with the custom port `1023.99999999999999999999`, a text whose nearest
double is 1024. -/
def sampleRoundedForm : AddUserForm :=
  { sampleForm with customPort := "1023.99999999999999999999" }

/-- A refresh is under way, the refresh button forces a second one, and the first settles. -/
def sampleForced : ServicesState :=
  servicesRun (servicesInit none)
    [ServicesEvent.call false, ServicesEvent.call true,
     ServicesEvent.settle 1000 true (FetchOutcome.json true (some [sampleServiceA]))]

/-- An `info` notification of time 1000. -/
def sampleInfoOld : Notification :=
  { type := "info", message := some "Backup started", username := none, timestamp := some 1000 }

/-- An `info` notification of time 2000. -/
def sampleInfoNew : Notification :=
  { type := "info", message := some "Backup verified", username := none,
    timestamp := some 2000 }

/-- A notification whose type is `'constructor'`, of time 500. -/
def sampleConstructor : Notification :=
  { type := "constructor", message := some "x", username := none, timestamp := some 500 }

/-- An `info` notification whose timestamp is not a valid date. -/
def sampleInfoInvalid : Notification :=
  { type := "info", message := some "x", username := none,
    timestamp := some DateValue.invalid }

/-! ## Properties of the notification order -/

theorem rankTimeLE_total (a b : Notification) : rankTimeLE a b ∨ rankTimeLE b a := by
  unfold rankTimeLE
  by_cases h : rankNumber a = rankNumber b
  · rw [if_neg (not_not.mpr h), if_neg (not_not.mpr h.symm)]
    omega
  · rw [if_pos h, if_pos (Ne.symm h)]
    omega

theorem rankTimeLE_trans (a b c : Notification) (hab : rankTimeLE a b) (hbc : rankTimeLE b c) :
    rankTimeLE a c := by
  unfold rankTimeLE at *
  split_ifs at hab hbc ⊢ <;> omega

instance rankTimeLE_isTotal : IsTotal Notification rankTimeLE := ⟨rankTimeLE_total⟩

instance rankTimeLE_isTrans : IsTrans Notification rankTimeLE := ⟨rankTimeLE_trans⟩

theorem plain_orderOf (a : Notification) (h : PlainNotification a) :
    orderOf a.type = RankValue.num (rankNumber a) := by
  have hkey : a.type ∉ objectPrototypeKeys := h.1
  unfold rankNumber orderOf typeOrder readProperty
  cases typeOrder_entries.lookup a.type with
  | none => simp [hkey]
  | some v => by_cases hv : v = 0 <;> simp [hv]

theorem plain_timeOf (a : Notification) (h : PlainNotification a) :
    timeOf a = some (timeNumber a) := by
  have hts : a.timestamp ≠ some DateValue.invalid := h.2
  unfold timeNumber timeOf
  rcases hd : a.timestamp with _ | ⟨t⟩ | _
  · rfl
  · rfl
  · exact absurd hd hts

theorem notifLE_iff_rankTimeLE (a b : Notification) (ha : PlainNotification a)
    (hb : PlainNotification b) : notifLE a b ↔ rankTimeLE a b := by
  unfold notifLE compareNotifications rankTimeLE
  simp only [plain_orderOf a ha, plain_orderOf b hb, plain_timeOf a ha, plain_timeOf b hb,
    ne_eq, RankValue.num.injEq, rankDifference]
  by_cases h : rankNumber a = rankNumber b <;> simp [h]

theorem orderedInsert_congr (r r' : Notification → Notification → Prop) [DecidableRel r]
    [DecidableRel r'] (a : Notification) (t : List Notification)
    (h : ∀ b ∈ t, r a b ↔ r' a b) : List.orderedInsert r a t = List.orderedInsert r' a t := by
  induction t with
  | nil => rfl
  | cons b t ih =>
    have hb : r a b ↔ r' a b := h b (List.mem_cons_self b t)
    have ht : ∀ c ∈ t, r a c ↔ r' a c := fun c hc => h c (List.mem_cons_of_mem b hc)
    by_cases hr : r a b
    · simp [List.orderedInsert, hr, hb.mp hr]
    · have hr' : ¬ r' a b := fun h' => hr (hb.mpr h')
      simp [List.orderedInsert, hr, hr', ih ht]

theorem sortNotifications_plain (l : List Notification) (h : ∀ n ∈ l, PlainNotification n) :
    sortNotifications l = List.insertionSort rankTimeLE l := by
  unfold sortNotifications
  induction l with
  | nil => rfl
  | cons a l ih =>
    have hl : ∀ n ∈ l, PlainNotification n := fun n hn => h n (List.mem_cons_of_mem a hn)
    have ha : PlainNotification a := h a (List.mem_cons_self a l)
    simp only [List.insertionSort]
    rw [ih hl]
    apply orderedInsert_congr
    intro b hb
    have hbl : b ∈ l := (List.mem_insertionSort rankTimeLE).mp hb
    exact notifLE_iff_rankTimeLE a b ha (hl b hbl)

theorem rankTimeLE_same_type (a b : Notification) (h : rankTimeLE a b) (ht : a.type = b.type) :
    timeNumber b ≤ timeNumber a := by
  have hr : rankNumber a = rankNumber b := by unfold rankNumber; rw [ht]
  unfold rankTimeLE at h
  simp only [hr, ne_eq, not_true_eq_false, if_false] at h
  omega

/-- C1: at a list holding an `expire_soon` item and an `expired` item the sort of
`notifications.js` puts the `expired` item last, in whichever order the two arrive: the rank of
`'expired'` is `0 || 4 = 4`. -/
theorem sortNotifications_expired_last :
    orderOf "expired" = 4 ∧
    sortNotifications [sampleSoon, sampleExpired] = [sampleSoon, sampleExpired] ∧
    sortNotifications [sampleExpired, sampleSoon] = [sampleSoon, sampleExpired] := by
  decide

/-- C2, as the claim states it: a notification whose type is `'constructor'` reads the
inherited function out of `typeOrder`, the callback returns `NaN` against every other type,
and the sort leaves an older `info` item in front of a newer one; an `info` item whose
timestamp is not a valid date does the same. -/
theorem sortNotifications_inherited_type :
    sortNotifications [sampleInfoOld, sampleConstructor, sampleInfoNew]
      = [sampleInfoOld, sampleConstructor, sampleInfoNew] ∧
    sampleInfoOld.type = sampleInfoNew.type ∧
    timeOf sampleInfoOld = some 1000 ∧ timeOf sampleInfoNew = some 2000 ∧
    compareNotifications sampleInfoOld sampleConstructor = none ∧
    sortNotifications [sampleInfoOld, sampleInfoInvalid, sampleInfoNew]
      = [sampleInfoOld, sampleInfoInvalid, sampleInfoNew] := by
  decide

/-- C2, amended: for a list in which no type is the name of a property inherited from
`Object.prototype` and every timestamp present is a valid date, the sort of `notifications.js`
rearranges the list into the order of the callback, and in its result, as in every arrangement
of the list that is in the order of the callback, any two items of the same type stand in
descending order of time, a missing timestamp counting as time 0. -/
theorem sortNotifications_same_type_newer_first (l : List Notification)
    (hplain : ∀ n ∈ l, PlainNotification n) :
    (sortNotifications l).Perm l ∧
    (sortNotifications l).Pairwise notifLE ∧
    (sortNotifications l).Pairwise (fun a b => a.type = b.type → timeNumber b ≤ timeNumber a) ∧
    ∀ l' : List Notification, l'.Perm l → l'.Pairwise notifLE →
      l'.Pairwise (fun a b => a.type = b.type → timeNumber b ≤ timeNumber a) := by
  have hany : ∀ l' : List Notification, l'.Perm l → l'.Pairwise notifLE →
      l'.Pairwise (fun a b => a.type = b.type → timeNumber b ≤ timeNumber a) := by
    intro l' hperm hsorted
    refine hsorted.imp_of_mem ?_
    intro a b ha hb hab ht
    have hpa := hplain a (hperm.subset ha)
    have hpb := hplain b (hperm.subset hb)
    exact rankTimeLE_same_type a b ((notifLE_iff_rankTimeLE a b hpa hpb).mp hab) ht
  have hperm : (sortNotifications l).Perm l := List.perm_insertionSort notifLE l
  have hs : (List.insertionSort rankTimeLE l).Pairwise rankTimeLE :=
    List.sorted_insertionSort rankTimeLE l
  rw [← sortNotifications_plain l hplain] at hs
  have hsorted : (sortNotifications l).Pairwise notifLE := by
    refine hs.imp_of_mem ?_
    intro a b ha hb hab
    exact (notifLE_iff_rankTimeLE a b (hplain a (hperm.subset ha))
      (hplain b (hperm.subset hb))).mpr hab
  exact ⟨hperm, hsorted, hany _ hperm hsorted, hany⟩

theorem sortNotifications_same_type_newer_first_witness :
    (sortNotifications [sampleInfoOld, sampleSoon, sampleInfoNew]).Pairwise
      (fun a b => a.type = b.type → timeNumber b ≤ timeNumber a) :=
  (sortNotifications_same_type_newer_first [sampleInfoOld, sampleSoon, sampleInfoNew]
    (by decide)).2.2.1

/-- C3: the renderer of `app.js` shows the items in the order of its argument: given an `info`
item followed by an `expired` item it renders the `info` item first. -/
theorem appRenderedItems_input_order (now : String) :
    appRenderedItems now [sampleInfo, sampleExpired]
      = [appNotificationItem now sampleInfo, appNotificationItem now sampleExpired] := by
  rfl

/-! ## Properties of the services refresh -/

/-- C4: a call of `loadServicesStatus(false)` while `isUpdating` is true changes nothing: no
fetch is issued and `servicesData`, `isUpdating`, `lastUpdateTime` and the storage stay. -/
theorem loadServicesStatus_call_guarded (s : ServicesState) (h : s.isUpdating = true) :
    loadServicesStatus_call false s = s := by
  simp [loadServicesStatus_call, h]

theorem loadServicesStatus_call_guarded_witness :
    sampleUpdating.isUpdating = true ∧ loadServicesStatus_call false sampleUpdating = sampleUpdating :=
  ⟨by decide, loadServicesStatus_call_guarded sampleUpdating (by decide)⟩

theorem servicesStep_guardInv (s : ServicesState) (e : ServicesEvent) (hinv : GuardInv s)
    (he : e.nonForced = true) : GuardInv (servicesStep s e) := by
  unfold GuardInv at *
  cases e with
  | call forceRefresh =>
    simp only [ServicesEvent.nonForced, Bool.not_eq_true'] at he
    subst he
    cases hu : s.isUpdating <;> simp [servicesStep, loadServicesStatus_call, hu] at hinv ⊢ <;>
      omega
  | settle now writeOk o =>
    by_cases h0 : s.inFlight = 0
    · simpa [servicesStep, h0] using hinv
    · have h1 : s.inFlight = 1 := by
        cases hu : s.isUpdating <;> simp [hu] at hinv <;> omega
      cases o with
      | json success user_services =>
        cases success <;> cases writeOk <;>
          simp [servicesStep, h0, loadServicesStatus_resume, saveServicesToLocalStorage, h1]
      | networkError =>
        simp only [servicesStep, h0, if_false, loadServicesStatus_resume,
          loadServicesStatus_catch]
        split <;> [split; skip] <;> simp [h1]
      | httpError status =>
        simp only [servicesStep, h0, if_false, loadServicesStatus_resume,
          loadServicesStatus_catch]
        split <;> [split; skip] <;> simp [h1]
      | badBody =>
        simp only [servicesStep, h0, if_false, loadServicesStatus_resume,
          loadServicesStatus_catch]
        split <;> [split; skip] <;> simp [h1]

theorem servicesRun_guardInv (events : List ServicesEvent) :
    ∀ s : ServicesState, GuardInv s → (∀ e ∈ events, e.nonForced = true) →
      GuardInv (servicesRun s events) := by
  induction events with
  | nil => intro s hinv _; simpa [servicesRun] using hinv
  | cons e es ih =>
    intro s hinv hnf
    have h := ih (servicesStep s e)
      (servicesStep_guardInv s e hinv (hnf e (List.mem_cons_self e es)))
      (fun e' he' => hnf e' (List.mem_cons_of_mem e he'))
    simpa [servicesRun] using h

theorem guardInv_le_one (s : ServicesState) (h : GuardInv s) : s.inFlight ≤ 1 := by
  unfold GuardInv at h
  cases hu : s.isUpdating <;> simp [hu] at h <;> omega

/-- C5: from a state with `isUpdating = false` and no fetch pending, after any number of steps
of any sequence of non-forced calls of `loadServicesStatus` and of fetches settling (with any
outcome), at most one fetch is in flight. -/
theorem loadServicesStatus_at_most_one_in_flight (s : ServicesState)
    (events : List ServicesEvent) (k : Nat) (hflag : s.isUpdating = false)
    (hnone : s.inFlight = 0) (hnf : ∀ e ∈ events, e.nonForced = true) :
    (servicesRun s (events.take k)).inFlight ≤ 1 := by
  apply guardInv_le_one
  apply servicesRun_guardInv
  · simp [GuardInv, hflag, hnone]
  · intro e he
    exact hnf e (List.mem_of_mem_take he)

theorem loadServicesStatus_at_most_one_in_flight_witness :
    (servicesRun (servicesInit none)
      ([ServicesEvent.call false, ServicesEvent.call false,
        ServicesEvent.settle 1000 true FetchOutcome.networkError,
        ServicesEvent.call false].take 2)).inFlight ≤ 1 :=
  loadServicesStatus_at_most_one_in_flight (servicesInit none)
    [ServicesEvent.call false, ServicesEvent.call false,
      ServicesEvent.settle 1000 true FetchOutcome.networkError,
      ServicesEvent.call false] 2 rfl rfl (by decide)

/-! ## Properties of the refresh operations of `app.js` and `notifications.js` -/

/-- C6, as the claim states it: after two calls of `loadUsers`, of `loadStats` or of
`checkNotifications` with no fetch settled in between, two fetches of that domain are in
flight, not at most one. -/
theorem refresh_second_call_second_fetch :
    ¬ ((loadUsers_call (loadUsers_call refreshInit)).usersInFlight ≤ 1) ∧
    ¬ ((loadStats_call (loadStats_call refreshInit)).statsInFlight ≤ 1) ∧
    ¬ ((checkNotifications_call (checkNotifications_call refreshInit)).notificationsInFlight ≤ 1) := by
  decide

/-- C6, amended: the refresh operations of the users, stats and notifications domains issue a
fetch on every call; `n` calls with no fetch settled in between add `n` fetches in flight. -/
theorem refresh_every_call_fetches (s : RefreshState) (n : Nat) :
    (Nat.iterate loadUsers_call n s).usersInFlight = s.usersInFlight + n ∧
    (Nat.iterate loadStats_call n s).statsInFlight = s.statsInFlight + n ∧
    (Nat.iterate checkNotifications_call n s).notificationsInFlight
      = s.notificationsInFlight + n ∧
    (Nat.iterate loadNotifications_call n s).notificationsInFlight
      = s.notificationsInFlight + n := by
  induction n generalizing s with
  | zero => simp
  | succ n ih =>
    simp only [Function.iterate_succ, Function.comp_apply]
    refine ⟨?_, ?_, ?_, ?_⟩
    · rw [(ih (loadUsers_call s)).1]; simp only [loadUsers_call]; omega
    · rw [(ih (loadStats_call s)).2.1]; simp only [loadStats_call]; omega
    · rw [(ih (checkNotifications_call s)).2.2.1]; simp only [checkNotifications_call]; omega
    · rw [(ih (loadNotifications_call s)).2.2.2]; simp only [loadNotifications_call]; omega

/-! ## Properties of the durable snapshot -/

/-- C7: a stored snapshot whose age `now - timestamp` exceeds 3,600,000 ms is not returned by
`getServicesFromLocalStorage`, and neither is anything when no snapshot is stored. -/
theorem getServicesFromLocalStorage_stale (data : List Service) (timestamp now : Int)
    (h : now - timestamp > 3600000) :
    getServicesFromLocalStorage now (some (StorageItem.snapshot data (some timestamp))) = none ∧
    getServicesFromLocalStorage now none = none := by
  constructor
  · simp only [getServicesFromLocalStorage]
    rw [if_neg (by omega)]
  · rfl

theorem getServicesFromLocalStorage_stale_witness :
    (3600001 : Int) - 0 > 3600000 ∧
    getServicesFromLocalStorage 3600001
      (some (StorageItem.snapshot [sampleServiceA] (some 0))) = none ∧
    getServicesFromLocalStorage 3600001 none = none :=
  ⟨by decide, getServicesFromLocalStorage_stale [sampleServiceA] 0 3600001 (by decide)⟩

/-- C8: a snapshot of age exactly 3,600,000 ms is discarded (the test is `age < 3600000`),
while one of age 3,599,999 ms is returned. -/
theorem getServicesFromLocalStorage_one_hour :
    getServicesFromLocalStorage 3600000
      (some (StorageItem.snapshot [sampleServiceA] (some 0))) = none ∧
    getServicesFromLocalStorage 3599999
      (some (StorageItem.snapshot [sampleServiceA] (some 0))) = some [sampleServiceA] := by
  decide

/-- C9: when the fetch of `loadServicesStatus` settles at `now` with `success` true and an array
`S` as `user_services`, `servicesData` becomes `S` whether or not the storage write succeeds,
and when it succeeds `getServicesFromLocalStorage` at any later instant less than 3,600,000 ms
after `now` returns `S`. -/
theorem loadServicesStatus_success_snapshot (s : ServicesState) (now later : Int)
    (S : List Service) (h : later - now < 3600000) :
    (∀ writeOk, (loadServicesStatus_resume now writeOk
        (FetchOutcome.json true (some S)) s).servicesData = S) ∧
    getServicesFromLocalStorage later
      (loadServicesStatus_resume now true (FetchOutcome.json true (some S)) s).storage
        = some S := by
  constructor
  · intro writeOk
    cases writeOk <;> simp [loadServicesStatus_resume, saveServicesToLocalStorage]
  · simp [loadServicesStatus_resume, saveServicesToLocalStorage, getServicesFromLocalStorage, h]

theorem loadServicesStatus_success_snapshot_witness :
    ((1000 : Int) - 1000 < 3600000) ∧
    (∀ writeOk, (loadServicesStatus_resume 1000 writeOk
        (FetchOutcome.json true (some [sampleServiceA])) sampleUpdating).servicesData
          = [sampleServiceA]) ∧
    getServicesFromLocalStorage 1000
      (loadServicesStatus_resume 1000 true
        (FetchOutcome.json true (some [sampleServiceA])) sampleUpdating).storage
        = some [sampleServiceA] :=
  ⟨by decide,
    loadServicesStatus_success_snapshot sampleUpdating 1000 1000 [sampleServiceA] (by decide)⟩

/-- C10, as the claim states it: in a state the code reaches, with `servicesData` non-empty, a
refresh that fails with a network error replaces `servicesData` by the durable snapshot. -/
theorem loadServicesStatus_failure_overwrites :
    sampleDiverged.servicesData = [sampleServiceB] ∧
    (loadServicesStatus_resume 61000 true FetchOutcome.networkError sampleDiverged).servicesData
      = [sampleServiceA] ∧
    (loadServicesStatus_resume 61000 true FetchOutcome.networkError sampleDiverged).servicesData
      ≠ sampleDiverged.servicesData := by
  decide

/-- C10, amended: when the refresh fails with a network error or a non-ok HTTP status,
`servicesData` becomes the data of the durable snapshot if that snapshot is younger than
3,600,000 ms and non-empty, and stays as it was if `getServicesFromLocalStorage` yields `null`
or an empty list; whether `servicesData` was empty plays no part. -/
theorem loadServicesStatus_failure_servicesData (s : ServicesState) (now : Int)
    (writeOk : Bool) (o : FetchOutcome)
    (ho : o = FetchOutcome.networkError ∨ ∃ status, o = FetchOutcome.httpError status) :
    (∀ data timestamp, s.storage = some (StorageItem.snapshot data (some timestamp)) →
      now - timestamp < 3600000 → data ≠ [] →
        (loadServicesStatus_resume now writeOk o s).servicesData = data) ∧
    (getServicesFromLocalStorage now s.storage = none ∨
      getServicesFromLocalStorage now s.storage = some [] →
        (loadServicesStatus_resume now writeOk o s).servicesData = s.servicesData) := by
  have hres : (loadServicesStatus_resume now writeOk o s).servicesData
      = (loadServicesStatus_catch now s).servicesData := by
    rcases ho with rfl | ⟨status, rfl⟩ <;> simp [loadServicesStatus_resume]
  rw [hres]
  constructor
  · intro data timestamp hst hage hne
    have hlen : data.length > 0 := List.length_pos.mpr hne
    simp [loadServicesStatus_catch, hst, getServicesFromLocalStorage, hage, hlen]
  · intro hget
    rcases hget with hget | hget <;> simp [loadServicesStatus_catch, hget]

theorem loadServicesStatus_failure_servicesData_witness :
    (loadServicesStatus_resume 61000 true (FetchOutcome.httpError 503) sampleDiverged).servicesData
      = [sampleServiceA] :=
  (loadServicesStatus_failure_servicesData sampleDiverged 61000 true (FetchOutcome.httpError 503)
    (Or.inr ⟨503, rfl⟩)).1 [sampleServiceA] 1000 (by decide) (by decide) (by decide)

/-- C11, as the claim states it: with nothing in memory and a fresh non-empty durable snapshot,
a response with `success` false leaves `servicesData` empty, while a network error loads the
snapshot. -/
theorem loadServicesStatus_success_false_no_fallback :
    sampleOffline.servicesData = [] ∧
    getServicesFromLocalStorage 2000 sampleOffline.storage = some [sampleServiceA] ∧
    (loadServicesStatus_resume 2000 true FetchOutcome.networkError sampleOffline).servicesData
      = [sampleServiceA] ∧
    ¬ ((loadServicesStatus_resume 2000 true (FetchOutcome.json false none)
        sampleOffline).servicesData = [sampleServiceA]) := by
  decide

/-- C11, amended: a well-formed response with `success` false changes neither `servicesData` nor
`lastUpdateTime` nor the durable snapshot, whatever the snapshot holds; the refresh only ends
(`isUpdating` becomes false). -/
theorem loadServicesStatus_success_false_unchanged (s : ServicesState) (now : Int)
    (writeOk : Bool) (user_services : Option (List Service)) :
    loadServicesStatus_resume now writeOk (FetchOutcome.json false user_services) s
      = { s with isUpdating := false, inFlight := s.inFlight - 1 } := by
  rfl

/-! ## Properties of the traffic stream -/

/-- C12: on a message of type `'traffic_update'` with a data object the handler returns normally,
`liveTrafficData` becomes `data.history` and the per-user list becomes `data.users`, each the
empty list when absent; nothing else changes. -/
theorem onmessage_traffic_update (s : StreamState) (history : Option (List TrafficPoint))
    (users : Option (List LiveUser)) :
    onmessage s (StreamMessage.json (some "traffic_update") (DataField.object history users))
      = Except.ok { s with liveTrafficData := history.getD [], liveUsers := users.getD [] } := by
  rfl

/-- C13, as the claim states it: a message of type `'traffic_update'` whose data is a number
has no data object, and on it the handler empties `liveTrafficData` and the per-user list. -/
theorem onmessage_primitive_data :
    sampleLiveStream.liveTrafficData ≠ [] ∧
    onmessage sampleLiveStream (StreamMessage.json (some "traffic_update") DataField.primitive)
      = Except.ok { sampleLiveStream with liveTrafficData := [], liveUsers := [] } ∧
    onmessage sampleLiveStream (StreamMessage.json (some "traffic_update") DataField.primitive)
      ≠ Except.ok sampleLiveStream := by
  refine ⟨by decide, rfl, ?_⟩
  intro h
  have hs : ({ sampleLiveStream with liveTrafficData := [], liveUsers := [] } : StreamState)
      = sampleLiveStream := Except.ok.inj h
  have hl := congrArg StreamState.liveTrafficData hs
  exact absurd hl (by decide)

/-- C13, amended: on a message that is not valid JSON, that parses to `null`, whose type is
missing or is not `'traffic_update'`, or whose type is `'traffic_update'` while its data is
absent or `null`, the handler returns normally and the state, `liveTrafficData` and the
connection included, is unchanged; on a message of type `'traffic_update'` whose data is a
number, string or boolean it returns normally with `liveTrafficData` and the per-user list
emptied and the connection unchanged. -/
theorem onmessage_malformed (s : StreamState) (m : StreamMessage)
    (h : m = StreamMessage.invalidJson ∨ m = StreamMessage.jsonNull ∨
      (∃ type data, m = StreamMessage.json type data ∧ type ≠ some "traffic_update") ∨
      m = StreamMessage.json (some "traffic_update") DataField.missing) :
    onmessage s m = Except.ok s ∧
    onmessage s (StreamMessage.json (some "traffic_update") DataField.primitive)
      = Except.ok { s with liveTrafficData := [], liveUsers := [] } := by
  refine ⟨?_, rfl⟩
  rcases h with rfl | rfl | ⟨type, data, rfl, ht⟩ | rfl
  · rfl
  · rfl
  · simp [onmessage, onmessage_try, ht]
  · rfl

theorem onmessage_malformed_witness :
    onmessage sampleLiveStream (StreamMessage.json (some "heartbeat") DataField.primitive)
      = Except.ok sampleLiveStream :=
  (onmessage_malformed sampleLiveStream
    (StreamMessage.json (some "heartbeat") DataField.primitive)
    (Or.inr (Or.inr (Or.inl ⟨some "heartbeat", DataField.primitive, rfl, by decide⟩)))).1

theorem onerror_iterate (k : Nat) (s : StreamState) :
    Nat.iterate onerror k s = { s with timers := s.timers + k } := by
  induction k generalizing s with
  | zero => rfl
  | succ k ih =>
    rw [Function.iterate_succ_apply, ih]
    simp only [onerror]
    congr 1
    omega

theorem startTrafficStream_eventSource (s : StreamState) :
    (startTrafficStream s).eventSource = some ReadyState.connecting := by
  simp [startTrafficStream, StreamState.eventSource]

theorem reconnectTimer_not_closed (s : StreamState)
    (h : s.eventSource ≠ some ReadyState.closed) :
    reconnectTimer s = { s with timers := s.timers - 1 } := by
  unfold reconnectTimer
  by_cases h0 : s.timers = 0
  · rw [if_pos h0]
    cases s
    simp_all
  · rw [if_neg h0]
    have h' : ({ s with timers := s.timers - 1 } : StreamState).eventSource
        ≠ some ReadyState.closed := h
    simp only [if_neg h']

theorem reconnectTimer_iterate_connecting (k : Nat) (s : StreamState)
    (h : s.eventSource = some ReadyState.connecting) :
    (Nat.iterate reconnectTimer k s).starts = s.starts ∧
    (Nat.iterate reconnectTimer k s).sources = s.sources := by
  induction k generalizing s with
  | zero => exact ⟨rfl, rfl⟩
  | succ k ih =>
    rw [Function.iterate_succ_apply]
    have hne : s.eventSource ≠ some ReadyState.closed := by rw [h]; decide
    rw [reconnectTimer_not_closed s hne]
    exact ih { s with timers := s.timers - 1 } h

/-- C14: when the current connection is closed and the error handler has run `k ≥ 1` times, the
`k` reconnect timers that then fire, with no stream event in between, invoke
`startTrafficStream` exactly once. -/
theorem reconnect_exactly_once (s : StreamState) (k : Nat) (hk : 1 ≤ k)
    (hclosed : s.eventSource = some ReadyState.closed) :
    (Nat.iterate reconnectTimer k (Nat.iterate onerror k s)).starts = s.starts + 1 := by
  obtain ⟨j, rfl⟩ : ∃ j, k = j + 1 := ⟨k - 1, by omega⟩
  rw [onerror_iterate, Function.iterate_succ_apply]
  have hfire : reconnectTimer { s with timers := s.timers + (j + 1) }
      = startTrafficStream { s with timers := s.timers + j } := by
    unfold reconnectTimer
    have h0 : ¬ (s.timers + (j + 1) = 0) := by omega
    simp only [h0, if_false, Nat.add_sub_cancel, StreamState.eventSource] at *
    rw [if_pos hclosed]
    rfl
  rw [hfire]
  rw [(reconnectTimer_iterate_connecting j _ (startTrafficStream_eventSource _)).1]
  rfl

theorem reconnect_exactly_once_witness :
    (Nat.iterate reconnectTimer 3 (Nat.iterate onerror 3 sampleClosedStream)).starts
      = sampleClosedStream.starts + 1 :=
  reconnect_exactly_once sampleClosedStream 3 (by decide) (by decide)

theorem oldClosed_startTrafficStream (s : StreamState) (h : OldClosed s.sources) :
    OldClosed (startTrafficStream s).sources := by
  unfold OldClosed at *
  intro r hr
  simp only [startTrafficStream, List.dropLast_concat] at hr
  unfold closeCurrent at hr
  cases hl : s.sources.getLast? with
  | none => simp [hl] at hr
  | some r0 =>
    simp only [hl, List.mem_append, List.mem_singleton] at hr
    rcases hr with hr | hr
    · exact h r hr
    · exact hr

theorem dropLast_setCurrent (r : ReadyState) (l : List ReadyState) :
    (setCurrent r l).dropLast = l.dropLast := by
  unfold setCurrent
  cases hl : l.getLast? with
  | none =>
    have : l = [] := List.getLast?_eq_none_iff.mp hl
    simp [this]
  | some r0 => simp [List.dropLast_concat]

theorem oldClosed_reconnectTimer (s : StreamState) (h : OldClosed s.sources) :
    OldClosed (reconnectTimer s).sources := by
  unfold reconnectTimer
  split
  · exact h
  · simp only []
    split
    · exact oldClosed_startTrafficStream _ h
    · exact h

theorem oldClosed_onmessage (s s' : StreamState) (m : StreamMessage)
    (h : onmessage s m = Except.ok s') : s'.sources = s.sources := by
  unfold onmessage at h
  cases m with
  | invalidJson => simp [onmessage_try] at h; rw [← h]
  | jsonNull => simp [onmessage_try] at h; rw [← h]
  | json type data =>
    by_cases ht : type = some "traffic_update"
    · cases data <;> simp [onmessage_try, ht] at h <;> rw [← h]
    · simp [onmessage_try, ht] at h; rw [← h]

theorem oldClosed_streamStep (s : StreamState) (e : StreamEvent) (h : OldClosed s.sources) :
    OldClosed (streamStep s e).sources := by
  cases e with
  | start => exact oldClosed_startTrafficStream s h
  | opened =>
    unfold OldClosed at *
    simpa [streamStep, dropLast_setCurrent] using h
  | failed fatal =>
    unfold OldClosed at *
    simpa [streamStep, onerror, dropLast_setCurrent] using h
  | errorAgain => simpa [streamStep, onerror] using h
  | message m =>
    simp only [streamStep]
    cases hm : onmessage s m with
    | ok s' => simp only []; rw [oldClosed_onmessage s s' m hm]; exact h
    | error _ => exact h
  | timer => exact oldClosed_reconnectTimer s h

theorem oldClosed_streamRun (events : List StreamEvent) :
    ∀ s : StreamState, OldClosed s.sources → OldClosed (streamRun s events).sources := by
  induction events with
  | nil => intro s h; exact h
  | cons e es ih =>
    intro s h
    exact ih (streamStep s e) (oldClosed_streamStep s e h)

theorem oldClosed_liveSources (s : StreamState) (h : OldClosed s.sources) :
    liveSources s ≤ 1 := by
  unfold liveSources
  unfold OldClosed at h
  rcases List.eq_nil_or_concat s.sources with hnil | ⟨l, a, hl⟩
  · simp [hnil]
  · rw [hl] at h ⊢
    simp only [List.concat_eq_append, List.dropLast_concat] at h
    have hfil : l.filter (fun r => decide (r ≠ ReadyState.closed)) = [] := by
      rw [List.filter_eq_nil_iff]
      intro r hr
      simp [h r hr]
    rw [List.concat_eq_append, List.filter_append, hfil]
    simp only [List.nil_append]
    exact (List.length_filter_le _ _).trans (by simp)

/-- C15: in every state reached from the loaded page by calls of `startTrafficStream`, stream
events and reconnect timers, at most one `EventSource` is not closed, and a reconnect timer
firing while the current `eventSource` is not closed only uses up the timer: the sources, the
count of invocations and the cached data stay. -/
theorem stream_at_most_one_live (events : List StreamEvent) :
    liveSources (streamRun streamInit events) ≤ 1 ∧
    ((streamRun streamInit events).eventSource ≠ some ReadyState.closed →
      reconnectTimer (streamRun streamInit events)
        = { streamRun streamInit events with
            timers := (streamRun streamInit events).timers - 1 }) := by
  constructor
  · apply oldClosed_liveSources
    apply oldClosed_streamRun
    intro r hr
    simp [streamInit] at hr
  · intro h
    exact reconnectTimer_not_closed _ h

theorem stream_at_most_one_live_witness :
    liveSources (streamRun streamInit
      [StreamEvent.start, StreamEvent.failed true, StreamEvent.timer, StreamEvent.start,
       StreamEvent.timer]) ≤ 1 :=
  (stream_at_most_one_live
    [StreamEvent.start, StreamEvent.failed true, StreamEvent.timer, StreamEvent.start,
     StreamEvent.timer]).1

/-! ## Properties of the poll scheduler -/

/-- C16, as the claim states it: `setupAutoRefresh` registers four timers, not five, and none of
them runs `loadUsers`. -/
theorem setupAutoRefresh_no_users_timer :
    setupAutoRefresh.length = 4 ∧
    Callback.loadUsers ∉ setupAutoRefresh.map Prod.fst := by
  decide

/-- C16, amended: `setupAutoRefresh` registers exactly four fixed-interval timers: `loadStats`
every 30000 ms, `loadServicesOverview` every 60000 ms, `checkNotifications` every 300000 ms
and `checkServerHealth` every 60000 ms. -/
theorem setupAutoRefresh_timers :
    setupAutoRefresh =
      [(Callback.loadStats, 30000), (Callback.loadServicesOverview, 60000),
       (Callback.checkNotifications, 300000), (Callback.checkServerHealth, 60000)] := by
  decide

/-! ## Properties of the endpoint resolver -/

theorem lookup_mem_values (k v : String) (l : List (String × String))
    (h : l.lookup k = some v) : v ∈ l.map Prod.snd := by
  induction l with
  | nil => simp [List.lookup] at h
  | cons e es ih =>
    obtain ⟨a, b⟩ := e
    by_cases hk : k = a
    · subst hk
      simp [List.lookup] at h
      simp [h]
    · have hbeq : (k == a) = false := by simpa using hk
      simp only [List.lookup, hbeq] at h
      simp [ih h]

theorem API_ENDPOINTS_plain (endpointKey path : String)
    (h : API_ENDPOINTS endpointKey = some path) :
    path ≠ "" ∧ jsIncludes path "{id}" = false := by
  have hall : ∀ v ∈ API_ENDPOINTS_entries.map Prod.snd,
      v ≠ "" ∧ jsIncludes v "{id}" = false := by decide
  exact hall path (lookup_mem_values endpointKey path API_ENDPOINTS_entries h)

theorem append_ne_empty (a b : String) (h : b ≠ "") : a ++ b ≠ "" := by
  intro hab
  apply h
  have hd : (a ++ b).data = ("" : String).data := by rw [hab]
  rw [String.data_append] at hd
  have hb : b.data = [] := (List.append_eq_nil.mp hd).2
  exact String.ext hb

theorem readProperty_of_lookup {α : Type} (entries : List (String × α)) (key : String)
    (value : α) (h : entries.lookup key = some value) :
    readProperty entries key = PropertyRead.own value := by
  simp [readProperty, h]

theorem readProperty_of_unmapped {α : Type} (entries : List (String × α)) (key : String)
    (h : entries.lookup key = none) (hkey : key ∉ objectPrototypeKeys) :
    readProperty entries key = PropertyRead.undefined := by
  simp [readProperty, h, hkey]

theorem getApiUrl_mapped (API_BASE endpointKey path : String) (id : Option String)
    (h : API_ENDPOINTS endpointKey = some path) :
    getApiUrl API_BASE endpointKey id = Except.ok (API_BASE ++ path) := by
  obtain ⟨hne, hinc⟩ := API_ENDPOINTS_plain endpointKey path h
  unfold getApiUrl
  rw [readProperty_of_lookup API_ENDPOINTS_entries endpointKey path h]
  simp only [hne, if_false, hinc, Bool.and_false]
  cases id <;> simp

theorem getApiUrl_unmapped (API_BASE endpointKey : String) (id : Option String)
    (h : API_ENDPOINTS endpointKey = none) (hkey : endpointKey ∉ objectPrototypeKeys) :
    getApiUrl API_BASE endpointKey id = Except.ok "" := by
  unfold getApiUrl
  rw [readProperty_of_unmapped API_ENDPOINTS_entries endpointKey h hkey]

/-- C17, as the claim states it: the key `'constructor'` is not mapped in `API_ENDPOINTS`, yet
`getApiUrl('constructor')` of `app.js` returns a non-empty text, the origin followed by the
text of the inherited function; and `getApiUrl('toString', '42')` throws. -/
theorem getApiUrl_inherited_key :
    API_ENDPOINTS "constructor" = none ∧
    getApiUrl "https://vpn.example" "constructor" none
      = Except.ok ("https://vpn.example" ++ inheritedText "constructor") ∧
    getApiUrl "https://vpn.example" "constructor" none ≠ Except.ok "" ∧
    getApiUrl "https://vpn.example" "toString" (some "42")
      = Except.error "TypeError: endpoint.includes is not a function" := by
  decide

/-- C17, amended: for a key that is not the name of a property inherited from
`Object.prototype`, `getApiUrl(key, id)` of `app.js` returns the empty string exactly when
`key` is not mapped in `API_ENDPOINTS`, and `API_BASE` followed by the mapped path otherwise;
so among such keys the result for an unmapped key differs from the result for every mapped
key. -/
theorem getApiUrl_empty_iff_unmapped (API_BASE endpointKey : String) (id : Option String)
    (hkey : endpointKey ∉ objectPrototypeKeys) :
    (getApiUrl API_BASE endpointKey id = Except.ok "" ↔ API_ENDPOINTS endpointKey = none) ∧
    (∀ path, API_ENDPOINTS endpointKey = some path →
      getApiUrl API_BASE endpointKey id = Except.ok (API_BASE ++ path)) ∧
    (∀ otherKey otherId, otherKey ∉ objectPrototypeKeys →
      API_ENDPOINTS endpointKey ≠ none → API_ENDPOINTS otherKey = none →
      getApiUrl API_BASE endpointKey id ≠ getApiUrl API_BASE otherKey otherId) := by
  have hiff : getApiUrl API_BASE endpointKey id = Except.ok "" ↔
      API_ENDPOINTS endpointKey = none := by
    cases h : API_ENDPOINTS endpointKey with
    | none => simp [getApiUrl_unmapped API_BASE endpointKey id h hkey]
    | some path =>
      rw [getApiUrl_mapped API_BASE endpointKey path id h]
      simp only [Except.ok.injEq, reduceCtorEq, iff_false]
      exact append_ne_empty API_BASE path (API_ENDPOINTS_plain endpointKey path h).1
  refine ⟨hiff, fun path h => getApiUrl_mapped API_BASE endpointKey path id h, ?_⟩
  intro otherKey otherId hother hmapped hunmapped heq
  rw [getApiUrl_unmapped API_BASE otherKey otherId hunmapped hother] at heq
  exact hmapped (hiff.mp heq)

theorem getApiUrl_empty_iff_unmapped_witness :
    getApiUrl "https://vpn.example" "services.status" none
      = Except.ok ("https://vpn.example" ++ "/api/services/status") :=
  (getApiUrl_empty_iff_unmapped "https://vpn.example" "services.status" none (by decide)).2.1
    "/api/services/status" (by decide)

/-- C18: for a non-empty user id, `getApiUrl('user.config', id)` of `config.js` followed by
`'/config'` is `getUserConfigUrl(id)` of `app.js`, that is the origin, `'/api/users/'`, the id
and `'/config'`: the trailing slash of the mapped base is removed before `'/'` and the id are
appended. -/
theorem configGetApiUrl_user_config (origin id : String) (h : id ≠ "") :
    configGetApiUrl origin "user.config" id ++ "/config" = getUserConfigUrl origin id ∧
    getUserConfigUrl origin id = origin ++ "/api/users/" ++ id ++ "/config" ∧
    stripTrailingSlash "/api/users/" = "/api/users" := by
  have hmap : CONFIG_API_ENDPOINTS "user.config" = some "/api/users/" := by decide
  have hstrip : stripTrailingSlash "/api/users/" = "/api/users" := by decide
  have hlit : ("/api/users" : String) ++ "/" = "/api/users/" := by decide
  refine ⟨?_, rfl, hstrip⟩
  unfold configGetApiUrl getUserConfigUrl
  rw [hmap]
  have hne : ¬ (("/api/users/" : String) = "") := by decide
  simp only [hne, if_false, ne_eq, h, not_false_eq_true, if_true, hstrip]
  rw [hlit]
  simp only [String.append_assoc]

theorem configGetApiUrl_user_config_witness :
    configGetApiUrl "https://vpn.example" "user.config" "42" ++ "/config"
      = getUserConfigUrl "https://vpn.example" "42" :=
  (configGetApiUrl_user_config "https://vpn.example" "42" (by decide)).1

/-! ## Properties of the users table and of the services overview -/

/-- C19, as the claim states it: the user of the scenario, with 2 GB used of 10 GB, is rendered
with a bar of width 0, not 20: `createUserRow` reads `traffic_percent`, which the record does
not have. -/
theorem createUserRow_alice_bar :
    sampleAlice.traffic_used_gb = some 2 ∧ sampleAlice.traffic_limit_gb = some 10 ∧
    trafficPercent sampleAlice = 0 ∧
    trafficPercent sampleAlice ≠ min ((2 : ℚ) / 10 * 100) 100 := by
  have h0 : trafficPercent sampleAlice = 0 := by decide
  refine ⟨rfl, rfl, h0, ?_⟩
  rw [h0]
  norm_num

/-- C19, amended: the width of the traffic bar is `traffic_percent` capped at 100, the property
the backend supplies, and 0 when the record has none, whatever `traffic_used_gb` and
`traffic_limit_gb` are. -/
theorem createUserRow_bar_width (user : User) :
    (user.traffic_percent = none → trafficPercent user = 0) ∧
    (∀ p, user.traffic_percent = some p → trafficPercent user = min p 100) := by
  constructor
  · intro h
    simp [trafficPercent, h]
  · intro p h
    by_cases hp : p = 0
    · simp [trafficPercent, h, hp]
    · simp [trafficPercent, h, hp]

theorem createUserRow_bar_width_witness :
    trafficPercent sampleAlicePercent = min 20 100 :=
  (createUserRow_bar_width sampleAlicePercent).2 20 rfl

/-- C20: when the fetch of `loadServicesOverview` settles with `{success: true, user_services:
[]}` and the overview element is not marked as updating, the element shows the empty-state
block of `updateServicesOverview` and carries no `data-updating` marker afterwards. -/
theorem loadServicesOverview_empty (usersData : List User) (c : OverviewContainer)
    (h : c.dataUpdating = false) :
    loadServicesOverview_resume (FetchOutcome.json true (some [])) usersData (some c)
      = some { innerHTML := overviewNoData, dataUpdating := false } := by
  simp [loadServicesOverview_resume, updateServicesOverview, h]

theorem loadServicesOverview_empty_witness :
    loadServicesOverview_resume (FetchOutcome.json true (some [])) [sampleAlice]
        (some sampleContainer)
      = some { innerHTML := overviewNoData, dataUpdating := false } :=
  loadServicesOverview_empty [sampleAlice] sampleContainer rfl

/-! ## Properties of the services tab -/

/-- C21: for the service of `alice`, which carries its own port and no method, and a user
`alice` with method `aes-256-gcm`, `updateServicesStatusDisplay` shows the method `N/A`; it
shows the user's method only for the service without a port. -/
theorem statusPortMethod_port_hides_method :
    sampleServiceA.method = none ∧ sampleServiceA.username = some sampleAliceMethod.username ∧
    statusPortMethod [sampleAliceMethod] sampleServiceA = ("8388", "N/A") ∧
    statusPortMethod [sampleAliceMethod] sampleServicePortless = ("8388", "aes-256-gcm") := by
  decide

/-! ## Properties of the password generator -/

/-- C22: when every draw is the letter `A`, the generated password is `!AAAAAAAAA`, which has
10 characters, not 16. -/
theorem generateRandomPassword_all_A :
    generateRandomPassword drawsAllA = "!AAAAAAAAA" ∧
    (generateRandomPassword drawsAllA).length = 10 := by
  decide

/-- C23: when every draw is the digit `0`, the generated password is `!00000000000`, which has
neither an uppercase nor a lowercase letter. -/
theorem generateRandomPassword_all_zero :
    generateRandomPassword drawsAllZero = "!00000000000" ∧
    (generateRandomPassword drawsAllZero).data.any Char.isUpper = false ∧
    (generateRandomPassword drawsAllZero).data.any Char.isLower = false := by
  decide

/-! ## Properties of the add-user form -/

/-- C25: for the custom port `2e3`, which is the number 2000 and passes the range check,
`handleAddUser` sends the request with `port: 2`, the value of `parseInt('2e3')`. -/
theorem handleAddUser_port_2e3 :
    portRejected sampleForm.customPort = false ∧
    (handleAddUser sampleForm).map (fun userData => userData.port) = some (some (some 2)) := by
  decide

/-! ## Properties of forced refreshes -/

/-- C26, as the claim states it: after a non-forced call, a forced call and one completion, one
fetch is still in flight while `isUpdating` is false. -/
theorem isUpdating_false_while_in_flight :
    sampleForced.inFlight = 1 ∧ sampleForced.isUpdating = false := by
  decide

/-- C26, amended: in every state reached from the loaded module by non-forced calls of
`loadServicesStatus` and completions, `isUpdating` is true whenever a fetch is in flight. -/
theorem isUpdating_while_in_flight (storage : Option StorageItem)
    (events : List ServicesEvent) (hnf : ∀ e ∈ events, e.nonForced = true)
    (hfl : 1 ≤ (servicesRun (servicesInit storage) events).inFlight) :
    (servicesRun (servicesInit storage) events).isUpdating = true := by
  have hinv : GuardInv (servicesRun (servicesInit storage) events) :=
    servicesRun_guardInv events (servicesInit storage) (by simp [GuardInv, servicesInit]) hnf
  unfold GuardInv at hinv
  cases hu : (servicesRun (servicesInit storage) events).isUpdating
  · rw [hu] at hinv
    simp at hinv
    omega
  · rfl

theorem isUpdating_while_in_flight_witness :
    (servicesRun (servicesInit none)
      [ServicesEvent.call false, ServicesEvent.call false]).isUpdating = true :=
  isUpdating_while_in_flight none [ServicesEvent.call false, ServicesEvent.call false]
    (by decide) (by decide)

/-! ## Properties of the call sites of the endpoint resolver -/

/-- C27: the key `'user.config'`, which `export.js` and `modals.js` pass to `getApiUrl`, is not
mapped in `API_ENDPOINTS` of `app.js`, whose `getApiUrl` returns the empty string for it; it is
the only such key, and `config.js` maps it. -/
theorem getApiUrl_user_config_unmapped :
    "user.config" ∈ callSiteKeys ∧
    API_ENDPOINTS "user.config" = none ∧
    getApiUrl "https://vpn.example" "user.config" (some "42") = Except.ok "" ∧
    callSiteKeys.filter (fun k => API_ENDPOINTS k = none) = ["user.config"] ∧
    CONFIG_API_ENDPOINTS "user.config" = some "/api/users/" := by
  decide

/-! ## Properties of dismissing a notification -/

/-- C30: for a notification whose `user_id` is the number 7 the Dismiss button passes the
strings `'info'` and `'7'`, and `dismissNotification('info', '7')` leaves the notification in
the list; the same notification with the string id `'u7'` is removed. -/
theorem dismissNotification_numeric_id :
    dismissArgs sampleNumericId = ("info", "7") ∧
    dismissNotification "info" "7" [sampleNumericId] = [sampleNumericId] ∧
    dismissArgs sampleInfo = ("info", "undefined") ∧
    dismissNotification "info" "undefined" [sampleInfo] = [sampleInfo] ∧
    dismissNotification "info" "u7" [sampleStringId] = [] := by
  decide

/-! ## Properties of the service name -/

theorem charsReplace_prefix (pat rep rest : List Char) (hp : pat ≠ []) :
    charsReplace pat rep (pat ++ rest) = rep ++ rest := by
  cases hl : pat ++ rest with
  | nil => simp at hl; exact absurd hl.1 hp
  | cons c cs =>
    have hpre : pat.isPrefixOf (c :: cs) = true := by
      rw [← hl]
      simp
    simp only [charsReplace, hpre, if_true]
    rw [← hl, List.drop_left]

theorem usernameChar_ne_dot (c : Char) (h : usernameChar c = true) : c ≠ '.' := by
  intro hc
  subst hc
  exact absurd h (by decide)

theorem charsReplace_suffix (u pat : List Char) (h : ∀ c ∈ u, c ≠ '.') :
    charsReplace ('.' :: pat) [] (u ++ '.' :: pat) = u := by
  induction u with
  | nil =>
    have h1 := charsReplace_prefix ('.' :: pat) [] [] (by simp)
    simpa using h1
  | cons c u ih =>
    have hc : c ≠ '.' := h c (List.mem_cons_self c u)
    have hpre : ('.' :: pat).isPrefixOf (c :: (u ++ '.' :: pat)) = false := by
      simp [List.isPrefixOf, Ne.symm hc]
    rw [List.cons_append, charsReplace, hpre]
    simp only [Bool.false_eq_true, if_false]
    rw [ih (fun x hx => h x (List.mem_cons_of_mem c hx))]

theorem charsReplace_service (u : List Char) (h : ∀ c ∈ u, usernameChar c = true) :
    charsReplace ".service".data [] (u ++ ".service".data) = u :=
  charsReplace_suffix u "service".data (fun c hc => usernameChar_ne_dot c (h c hc))

/-- C28: for a username made of letters, digits, underscores and hyphens, removing the first
`'shadowsocks-'` and then the first `'.service'` from `'shadowsocks-' + username + '.service'`
gives back the username. -/
theorem extractUsername_roundtrip (username : String)
    (h : ∀ c ∈ username.data, usernameChar c = true) :
    extractUsername ("shadowsocks-" ++ username ++ ".service") = username := by
  unfold extractUsername jsReplace
  simp only [String.data_append]
  rw [List.append_assoc, charsReplace_prefix "shadowsocks-".data "".data _ (by decide)]
  have h0 : ("" : String).data = [] := rfl
  rw [h0, List.nil_append, charsReplace_service username.data h]

theorem extractUsername_roundtrip_witness :
    extractUsername ("shadowsocks-" ++ "bob_1" ++ ".service") = "bob_1" :=
  extractUsername_roundtrip "bob_1" (by decide)

/-! ## Bounds of the password generator -/

theorem chars_length : chars.data.length = 70 := by decide

theorem charAt_chars (d : Fin 70) : ∃ c, charAt chars d.val = [c] ∧ c ∈ chars.data := by
  have hlt : d.val < chars.data.length := by rw [chars_length]; exact d.isLt
  refine ⟨chars.data.get ⟨d.val, hlt⟩, ?_, List.get_mem _ _ _⟩
  unfold charAt
  rw [List.get?_eq_get hlt]

theorem drawn_chars (l : List (Fin 70)) :
    ((l.map (fun d => charAt chars d.val)).flatten).length = l.length ∧
    ∀ c ∈ (l.map (fun d => charAt chars d.val)).flatten, c ∈ chars.data := by
  induction l with
  | nil => simp
  | cons d l ih =>
    obtain ⟨c, hc, hmem⟩ := charAt_chars d
    simp only [List.map_cons, List.flatten_cons, hc, List.singleton_append, List.length_cons,
      List.mem_cons]
    refine ⟨by rw [ih.1], ?_⟩
    rintro x (rfl | hx)
    · exact hmem
    · exact ih.2 x hx

theorem randomChars_spec (draws : Fin 16 → Fin 70) :
    (randomChars draws).length = 16 ∧ ∀ c ∈ randomChars draws, c ∈ chars.data := by
  have h := drawn_chars (List.ofFn draws)
  simpa [randomChars] using h

theorem mem_cons_drop (x a : Char) (k : Nat) (p : List Char) (P : Char → Prop)
    (ha : P a) (hp : ∀ c ∈ p, P c) (hx : x ∈ a :: p.drop k) : P x := by
  rcases List.mem_cons.mp hx with rfl | hx
  · exact ha
  · exact hp x (List.mem_of_mem_drop hx)

theorem ensure_chain (p : List Char) (hlen : p.length = 16) (hp : ∀ c ∈ p, c ∈ chars.data) :
    10 ≤ (ensureSpecial (ensureDigit (ensureLower (ensureUpper p)))).length ∧
    (ensureSpecial (ensureDigit (ensureLower (ensureUpper p)))).length ≤ 16 ∧
    ∀ c ∈ ensureSpecial (ensureDigit (ensureLower (ensureUpper p))), c ∈ chars.data := by
  have h1 : (ensureUpper p).length = 16 ∧ ∀ c ∈ ensureUpper p, c ∈ chars.data := by
    unfold ensureUpper
    split
    · exact ⟨hlen, hp⟩
    · refine ⟨by simp [List.length_drop]; omega, fun x hx => ?_⟩
      exact mem_cons_drop x 'A' 1 p (fun c => c ∈ chars.data) (by decide) hp hx
  have h2 : 15 ≤ (ensureLower (ensureUpper p)).length ∧
      (ensureLower (ensureUpper p)).length ≤ 16 ∧
      ∀ c ∈ ensureLower (ensureUpper p), c ∈ chars.data := by
    unfold ensureLower
    split
    · exact ⟨by omega, by omega, h1.2⟩
    · refine ⟨by simp [List.length_drop]; omega, by simp [List.length_drop]; omega,
        fun x hx => ?_⟩
      exact mem_cons_drop x 'a' 2 _ (fun c => c ∈ chars.data) (by decide) h1.2 hx
  have h3 : 13 ≤ (ensureDigit (ensureLower (ensureUpper p))).length ∧
      (ensureDigit (ensureLower (ensureUpper p))).length ≤ 16 ∧
      ∀ c ∈ ensureDigit (ensureLower (ensureUpper p)), c ∈ chars.data := by
    unfold ensureDigit
    split
    · exact ⟨by omega, by omega, h2.2.2⟩
    · refine ⟨by simp [List.length_drop]; omega, by simp [List.length_drop]; omega,
        fun x hx => ?_⟩
      exact mem_cons_drop x '1' 3 _ (fun c => c ∈ chars.data) (by decide) h2.2.2 hx
  unfold ensureSpecial
  split
  · exact ⟨by omega, by omega, h3.2.2⟩
  · refine ⟨by simp [List.length_drop]; omega, by simp [List.length_drop]; omega,
      fun x hx => ?_⟩
    exact mem_cons_drop x '!' 4 _ (fun c => c ∈ chars.data) (by decide) h3.2.2 hx

theorem length_le_jsLength (s : String) : s.length ≤ jsLength s := by
  unfold jsLength
  show s.data.length ≤ _
  induction s.data with
  | nil => simp
  | cons c cs ih =>
    simp only [List.length_cons, List.map_cons, List.sum_cons]
    split <;> omega

/-- C29: for every outcome of the sixteen draws the generated password has between 10 and 16
characters, all of them from the 70 characters of `chars`, so the test `password.length < 8` of
`handleAddUser` does not reject it. -/
theorem generateRandomPassword_length_bounds (draws : Fin 16 → Fin 70) :
    10 ≤ (generateRandomPassword draws).length ∧
    (generateRandomPassword draws).length ≤ 16 ∧
    (∀ c ∈ (generateRandomPassword draws).data, c ∈ chars.data) ∧
    chars.length = 70 ∧
    ¬ (jsLength (generateRandomPassword draws) < 8) := by
  obtain ⟨hlen, hmem⟩ := randomChars_spec draws
  obtain ⟨h10, h16, hall⟩ := ensure_chain (randomChars draws) hlen hmem
  have hjs := length_le_jsLength (generateRandomPassword draws)
  unfold generateRandomPassword at hjs ⊢
  simp only [String.length] at hjs ⊢
  exact ⟨h10, h16, hall, chars_length, by omega⟩

/-! ## Checks of the add-user form -/

theorem matchPlus_iff (p : Char → Bool) (rest : List Char → Bool) (l : List Char) :
    matchPlus p rest l = true ↔
      ∃ a b, l = a ++ b ∧ a ≠ [] ∧ (∀ x ∈ a, p x = true) ∧ rest b = true := by
  induction l with
  | nil =>
    simp only [matchPlus, Bool.false_eq_true, false_iff]
    rintro ⟨a, b, hab, hne, -, -⟩
    exact hne (List.append_eq_nil.mp hab.symm).1
  | cons c cs ih =>
    simp only [matchPlus, Bool.and_eq_true, Bool.or_eq_true]
    constructor
    · rintro ⟨hc, hrest | hrec⟩
      · exact ⟨[c], cs, rfl, by simp, by simpa using hc, hrest⟩
      · obtain ⟨a, b, hab, -, ha, hb⟩ := ih.mp hrec
        refine ⟨c :: a, b, by simp [hab], by simp, ?_, hb⟩
        intro x hx
        rcases List.mem_cons.mp hx with rfl | hx
        · exact hc
        · exact ha x hx
    · rintro ⟨a, b, hab, hne, ha, hb⟩
      cases a with
      | nil => exact absurd rfl hne
      | cons x a' =>
        simp only [List.cons_append, List.cons.injEq] at hab
        obtain ⟨rfl, rfl⟩ := hab
        refine ⟨ha c (List.mem_cons_self c a'), ?_⟩
        cases a' with
        | nil => exact Or.inl (by simpa using hb)
        | cons y a'' =>
          refine Or.inr (ih.mpr ⟨y :: a'', b, rfl, by simp, ?_, hb⟩)
          intro z hz
          exact ha z (List.mem_cons_of_mem c hz)

theorem matchChar_iff (c : Char) (rest : List Char → Bool) (l : List Char) :
    matchChar c rest l = true ↔ ∃ b, l = c :: b ∧ rest b = true := by
  cases l with
  | nil => simp [matchChar]
  | cons d ds =>
    simp only [matchChar, Bool.and_eq_true, decide_eq_true_eq, List.cons.injEq]
    constructor
    · rintro ⟨rfl, h⟩
      exact ⟨ds, ⟨rfl, rfl⟩, h⟩
    · rintro ⟨b, ⟨rfl, rfl⟩, h⟩
      exact ⟨rfl, h⟩

theorem emailRegexTest_iff (email : String) : emailRegexTest email = true ↔ EmailShape email := by
  unfold emailRegexTest EmailShape
  rw [matchPlus_iff]
  constructor
  · rintro ⟨a, r1, h1, ha, hpa, hr1⟩
    obtain ⟨r2, rfl, hr2⟩ := (matchChar_iff _ _ _).mp hr1
    obtain ⟨b, r3, rfl, hb, hpb, hr3⟩ := (matchPlus_iff _ _ _).mp hr2
    obtain ⟨r4, rfl, hr4⟩ := (matchChar_iff _ _ _).mp hr3
    obtain ⟨c, r5, rfl, hc, hpc, hr5⟩ := (matchPlus_iff _ _ _).mp hr4
    have h5 : r5 = [] := by simpa using hr5
    subst h5
    exact ⟨a, b, c, by simpa using h1, ha, hb, hc, hpa, hpb, hpc⟩
  · rintro ⟨a, b, c, h, ha, hb, hc, hpa, hpb, hpc⟩
    refine ⟨a, '@' :: (b ++ '.' :: c), h, ha, hpa, ?_⟩
    refine (matchChar_iff _ _ _).mpr ⟨_, rfl, ?_⟩
    refine (matchPlus_iff _ _ _).mpr ⟨b, '.' :: c, rfl, hb, hpb, ?_⟩
    refine (matchChar_iff _ _ _).mpr ⟨_, rfl, ?_⟩
    exact (matchPlus_iff _ _ _).mpr ⟨c, [], by simp, hc, hpc, rfl⟩

theorem JsNumber.finite_ltNat_iff (m e : Int) (n : Nat) :
    (JsNumber.finite m e).ltNat n = true ↔ (m : ℚ) * (2 : ℚ) ^ e < n := by
  cases e with
  | ofNat k =>
    simp only [JsNumber.ltNat, decide_eq_true_eq, Int.ofNat_eq_coe, zpow_natCast]
    constructor
    · intro h
      have : ((m * 2 ^ k : Int) : ℚ) < ((n : Int) : ℚ) := by exact_mod_cast h
      simpa using this
    · intro h
      have : ((m * 2 ^ k : Int) : ℚ) < ((n : Int) : ℚ) := by simpa using h
      exact_mod_cast this
  | negSucc k =>
    simp only [JsNumber.ltNat, decide_eq_true_eq, zpow_negSucc]
    have hpos : (0 : ℚ) < 2 ^ (k + 1) := by positivity
    rw [← div_eq_mul_inv, div_lt_iff₀ hpos]
    constructor
    · intro h
      have : ((m : Int) : ℚ) < ((n * 2 ^ (k + 1) : Int) : ℚ) := by exact_mod_cast h
      simpa using this
    · intro h
      have : ((m : Int) : ℚ) < ((n * 2 ^ (k + 1) : Int) : ℚ) := by simpa using h
      exact_mod_cast this

theorem JsNumber.finite_gtNat_iff (m e : Int) (n : Nat) :
    (JsNumber.finite m e).gtNat n = true ↔ (n : ℚ) < (m : ℚ) * (2 : ℚ) ^ e := by
  cases e with
  | ofNat k =>
    simp only [JsNumber.gtNat, decide_eq_true_eq, Int.ofNat_eq_coe, zpow_natCast]
    constructor
    · intro h
      have : ((n : Int) : ℚ) < ((m * 2 ^ k : Int) : ℚ) := by exact_mod_cast h
      simpa using this
    · intro h
      have : ((n : Int) : ℚ) < ((m * 2 ^ k : Int) : ℚ) := by simpa using h
      exact_mod_cast this
  | negSucc k =>
    simp only [JsNumber.gtNat, decide_eq_true_eq, zpow_negSucc]
    have hpos : (0 : ℚ) < 2 ^ (k + 1) := by positivity
    rw [← div_eq_mul_inv, lt_div_iff₀ hpos]
    constructor
    · intro h
      have : ((n * 2 ^ (k + 1) : Int) : ℚ) < ((m : Int) : ℚ) := by exact_mod_cast h
      simpa using this
    · intro h
      have : ((n * 2 ^ (k + 1) : Int) : ℚ) < ((m : Int) : ℚ) := by simpa using h
      exact_mod_cast this

theorem JsNumber.between_iff (v : JsNumber) (lo hi : Nat) :
    (v.ltNat lo || v.gtNat hi) = false ↔ v.Between lo hi := by
  cases v with
  | finite m e =>
    have hlt := JsNumber.finite_ltNat_iff m e lo
    have hgt := JsNumber.finite_gtNat_iff m e hi
    simp only [Bool.or_eq_false_iff, JsNumber.Between]
    rw [← not_lt, ← not_lt, ← hlt, ← hgt]
    simp
  | infinite negative =>
    cases negative <;> simp [JsNumber.ltNat, JsNumber.gtNat, JsNumber.Between]

theorem portRejected_false_iff (customPort : String)
    (hport : customPort = "" ∨ (toNumber customPort).isSome = true) :
    portRejected customPort = false ↔
      (customPort = "" ∨ ∃ v, toNumber customPort = some v ∧ v.Between 1024 65535) := by
  by_cases he : customPort = ""
  · simp [portRejected, he]
  · rcases hport with h | h
    · exact absurd h he
    · obtain ⟨v, hv⟩ := Option.isSome_iff_exists.mp h
      have hb := JsNumber.between_iff v 1024 65535
      simp only [portRejected, hv, ne_eq, he, not_false_eq_true, decide_True, Bool.true_and,
        false_or, Option.some.injEq, exists_eq_left']
      exact hb

theorem isSome_ite_none {α : Type} (c : Bool) (x : Option α) :
    (if c = true then none else x).isSome = (!c && x.isSome) := by
  cases c <;> simp

theorem handleAddUser_isSome (form : AddUserForm) :
    (handleAddUser form).isSome =
      (form.checkValidity &&
        (!(decide (jsLength (jsTrim form.username) < 3)
            || decide (jsLength (jsTrim form.username) > 20)) &&
          (!(decide (jsTrim form.email ≠ "") && !emailRegexTest (jsTrim form.email)) &&
            (!portRejected form.customPort &&
              !(decide (form.password ≠ "") && decide (jsLength form.password < 8)))))) := by
  unfold handleAddUser
  simp only [isSome_ite_none, Option.isSome_some, Bool.not_not, Bool.and_true]

/-- C24: with a custom-port field that is empty or converts to a number, as the text of a field
of type `number` does, `handleAddUser` issues the create-user request exactly when the form
passes the validation of the browser and all checks of the function pass: the trimmed username
has 3 to 20 characters, the trimmed email is empty or has the form `local@domain.tld` without
white space or a further `@`, the custom port is empty or, as the number the comparison
converts it to, lies between 1024 and 65535, and the password is empty or has at least 8
characters. -/
theorem handleAddUser_sends_iff (form : AddUserForm)
    (hport : form.customPort = "" ∨ (toNumber form.customPort).isSome = true) :
    (handleAddUser form).isSome = true ↔
      form.checkValidity = true ∧
      (3 ≤ jsLength (jsTrim form.username) ∧ jsLength (jsTrim form.username) ≤ 20) ∧
      (jsTrim form.email = "" ∨ EmailShape (jsTrim form.email)) ∧
      (form.customPort = "" ∨
        ∃ v, toNumber form.customPort = some v ∧ v.Between 1024 65535) ∧
      (form.password = "" ∨ 8 ≤ jsLength form.password) := by
  have hp := portRejected_false_iff form.customPort hport
  have hem := emailRegexTest_iff (jsTrim form.email)
  rw [handleAddUser_isSome]
  simp only [Bool.and_eq_true, Bool.not_eq_true', Bool.or_eq_false_iff, decide_eq_false_iff_not,
    not_lt, Bool.and_eq_false_iff, decide_eq_true_eq, Bool.not_eq_false, ne_eq, not_not,
    not_le, gt_iff_lt]
  rw [hp]
  have hem' : (!emailRegexTest (jsTrim form.email)) = false ↔ EmailShape (jsTrim form.email) := by
    rw [← hem]
    simp
  rw [hem']

theorem handleAddUser_sends_iff_witness :
    (handleAddUser sampleRoundedForm).isSome = true ↔
      true = true ∧
      (3 ≤ jsLength (jsTrim "carol") ∧ jsLength (jsTrim "carol") ≤ 20) ∧
      (jsTrim "carol@example.com" = "" ∨ EmailShape (jsTrim "carol@example.com")) ∧
      ("1023.99999999999999999999" = "" ∨
        ∃ v, toNumber "1023.99999999999999999999" = some v ∧ v.Between 1024 65535) ∧
      ("" = "" ∨ 8 ≤ jsLength "") :=
  handleAddUser_sends_iff sampleRoundedForm (Or.inr (by decide))

/-- The field text `1023.99999999999999999999` converts to the double 1024, passes the range
check, and the request is sent with `port: 1023`, the value of `parseInt`. -/
theorem handleAddUser_rounded_port :
    toNumber sampleRoundedForm.customPort = some (JsNumber.finite (2 ^ 53) (-43)) ∧
    portRejected sampleRoundedForm.customPort = false ∧
    (handleAddUser sampleRoundedForm).map (fun userData => userData.port)
      = some (some (some 1023)) := by
  decide

/-! ## Dismissing a notification with a string id -/

theorem idStrictEq_iff (id : Option JsId) (userId : String) :
    idStrictEq id userId = true ↔ id = some (JsId.str userId) := by
  unfold idStrictEq
  rcases id with _ | ⟨s⟩ | ⟨k⟩ <;> simp

theorem dismissNotification_sorted (type userId : String) (l0 : List Notification)
    (hplain : ∀ n ∈ l0, PlainNotification n) :
    dismissNotification type userId (sortNotifications l0)
      = (sortNotifications l0).filter
          (fun notif => !(notif.type = type && idStrictEq notif.user_id userId)) := by
  have hmem : ∀ n ∈ sortNotifications l0, PlainNotification n :=
    fun n hn => hplain n ((List.mem_insertionSort notifLE).mp hn)
  have hs : (sortNotifications l0).Sorted rankTimeLE := by
    rw [sortNotifications_plain l0 hplain]
    exact List.sorted_insertionSort rankTimeLE l0
  unfold dismissNotification
  rw [sortNotifications_plain _ (fun n hn => hmem n (List.mem_of_mem_filter hn))]
  exact (hs.filter _).insertionSort_eq

theorem dismissNotification_string_id (l0 : List Notification) (n : Notification) (id : String)
    (hplain : ∀ m ∈ l0, PlainNotification m) (hid : n.user_id = some (JsId.str id)) :
    dismissArgs n = (n.type, id) ∧
    n ∉ dismissNotification n.type id (sortNotifications l0) ∧
    (dismissNotification n.type id (sortNotifications l0)).Sublist (sortNotifications l0) ∧
    ∀ m ∈ sortNotifications l0, m ∉ dismissNotification n.type id (sortNotifications l0) →
      m.type = n.type ∧ m.user_id = n.user_id := by
  rw [dismissNotification_sorted n.type id l0 hplain]
  refine ⟨by simp [dismissArgs, idText, hid], ?_, List.filter_sublist _, ?_⟩
  · intro hmem
    have h := (List.mem_filter.mp hmem).2
    simp [hid, idStrictEq] at h
  · intro m hm hnot
    have hf : ¬ ((!(decide (m.type = n.type) && idStrictEq m.user_id id)) = true) :=
      fun hf => hnot (List.mem_filter.mpr ⟨hm, hf⟩)
    simp only [Bool.not_eq_true', Bool.not_eq_false, Bool.and_eq_true, decide_eq_true_eq] at hf
    exact ⟨hf.1, by rw [hid]; exact (idStrictEq_iff _ _).mp hf.2⟩

end Dashboard
